import Mathlib

/-!
Verification of the collision core of `mujoco_warp` (`_src/collision_core.py`):
geometry-pair view assembly (`geom_collision_pair`), contact parameter
resolution (`contact_params`) and the atomic contact commit protocol
(`write_contact`).

Floats are embedded as rationals (`ℚ`), warp ints as `ℤ` (or `ℕ` where the
value is only ever an array index), warp 2d arrays as a row count plus a total
indexing function (mirroring `arr.shape[0]` and `arr[i, j]`), and the mutable
contact output arrays plus the atomic counter as an explicit `ContactState`
threaded through `write_contact` (the sequential model of the atomic
reservation protocol: `wp.atomic_add` returns the old counter and bumps it).
-/

/-- Embedding of `wp.vec2` (float components as `ℚ`). -/
abbrev Vec2 := Fin 2 → ℚ

/-- Embedding of `wp.vec3`. -/
abbrev Vec3 := Fin 3 → ℚ

/-- Embedding of `types.vec5`. -/
abbrev Vec5 := Fin 5 → ℚ

/-- Embedding of `wp.mat33`. -/
abbrev Mat33 := Fin 3 → Fin 3 → ℚ

/-- Embedding of `types.mat63` (opaque to this core). -/
abbrev Mat63 := Fin 6 → Fin 3 → ℚ

/-- Componentwise constructor for `wp.vec2(a, b)`. -/
def vec2mk (a b : ℚ) : Vec2 := ![a, b]

/-- Componentwise constructor for `wp.vec3(a, b, c)`. -/
def vec3mk (a b c : ℚ) : Vec3 := ![a, b, c]

/-- Componentwise constructor for `vec5(a, b, c, d, e)`. -/
def vec5mk (a b c d e : ℚ) : Vec5 := ![a, b, c, d, e]

/-- Scalar multiplication on `wp.vec2`. -/
def v2smul (c : ℚ) (v : Vec2) : Vec2 := fun i => c * v i

/-- Componentwise addition on `wp.vec2`. -/
def v2add (a b : Vec2) : Vec2 := fun i => a i + b i

/-- Embedding of `wp.min` on `wp.vec2` (componentwise minimum). -/
def v2min (a b : Vec2) : Vec2 := fun i => min (a i) (b i)

/-- Embedding of `wp.max` on `wp.vec3` (componentwise maximum). -/
def v3max (a b : Vec3) : Vec3 := fun i => max (a i) (b i)

/-- Scalar multiplication on `vec5`. -/
def v5smul (c : ℚ) (v : Vec5) : Vec5 := fun i => c * v i

/-- Componentwise addition on `vec5`. -/
def v5add (a b : Vec5) : Vec5 := fun i => a i + b i

/-- Embedding of a `wp.array2d`: the row count (`arr.shape[0]`) together with
the total indexing function (`arr[i, j]`). -/
structure Array2 (α : Type) where
  nrow : ℕ
  data : ℕ → ℕ → α

/-- Modelled from the spec: the minimum-value numeric floor `MJ_MINVAL`
imported from `mujoco_warp._src.types`, a module not among the provided
sources (spec §6: "the minimum-friction and minimum-value numeric floors used
in parameter resolution"); MuJoCo's conventional value `1e-15`. Every claim
using it only needs the threshold itself (and its positivity), not the value. -/
def MJ_MINVAL : ℚ := 1e-15

/-- Modelled from the spec: the minimum friction coefficient floor `MJ_MINMU`
imported from `mujoco_warp._src.types` (spec §3: "every resolved friction
component ≥ a fixed minimum coefficient floor"); MuJoCo's conventional value
`1e-5`. Claims using it only need the floor itself, not the value. -/
def MJ_MINMU : ℚ := 1e-5

/-- Modelled from the spec: `safe_div` imported from
`mujoco_warp._src.math`, a module not among the provided sources — division
that substitutes the minimum-value floor for a zero denominator (spec §4.2
"avoids division by near-zero"). In `contact_params` it is only reached with
denominator `solmix1 + solmix2`, and its fallback branch is dead there: the
`wp.where` chain overrides the result whenever either solmix is below
`MJ_MINVAL`. -/
def safe_div (x y : ℚ) : ℚ := x / (if y ≠ 0 then y else MJ_MINVAL)

/-- Modelled from the spec: the `mesh` member of the `GeomType` enum from
`mujoco_warp._src.types` (not among the provided sources). The code only
compares `geom_type[g]` against this constant, so every claim is independent
of the numeral; MuJoCo's conventional value is 7. -/
def GeomType.MESH : ℤ := 7

/-- Modelled from the spec: the `CONSTRAINT` member of the `ContactType` bit
flag enum from `mujoco_warp._src.types` (not among the provided sources);
spec §3: independent combinable bits — bit 0. -/
def ContactType.CONSTRAINT : ℕ := 1

/-- Modelled from the spec: the `SENSOR` member of the `ContactType` bit flag
enum (bit 1), independent of `CONSTRAINT`. -/
def ContactType.SENSOR : ℕ := 2

/-- Embedding of the `Geom` warp struct (collision_core.py lines 34-62).
Warp zero-initializes a fresh struct, so every default is the zero of the
field's type.  The array-reference fields (`vert`, `graph`, `mesh_poly*`)
hold the shared model tables themselves. -/
structure Geom where
  pos : Vec3 := fun _ => 0
  rot : Mat33 := fun _ _ => 0
  normal : Vec3 := fun _ => 0
  size : Vec3 := fun _ => 0
  margin : ℚ := 0
  hfprism : Mat63 := fun _ _ => 0
  vertadr : ℤ := 0
  vertnum : ℤ := 0
  vert : ℕ → Vec3 := fun _ _ => 0
  graphadr : ℤ := 0
  graph : ℕ → ℤ := fun _ => 0
  mesh_polynum : ℤ := 0
  mesh_polyadr : ℤ := 0
  mesh_polynormal : ℕ → Vec3 := fun _ _ => 0
  mesh_polyvertadr : ℕ → ℤ := fun _ => 0
  mesh_polyvertnum : ℕ → ℤ := fun _ => 0
  mesh_polyvert : ℕ → ℤ := fun _ => 0
  mesh_polymapadr : ℕ → ℤ := fun _ => 0
  mesh_polymapnum : ℕ → ℤ := fun _ => 0
  mesh_polymap : ℕ → ℤ := fun _ => 0
  index : ℤ := 0

/-- Embedding of `geom_collision_pair` (collision_core.py lines 65-154).
Geometry ids and the world id are array indices, hence `ℕ`; `geom_dataid`
entries may be the `-1` sentinel, hence `ℤ`.  `wp.where(c, a, b)` becomes
`if c then a else b`.  Note the indexing: `geom_size` is read at row
`worldid % geom_size.nrow` (source: `worldid % geom_size.shape[0]`), while
`geom_xpos_in` / `geom_xmat_in` are read at row `worldid` directly. -/
def geom_collision_pair
    (geom_type : ℕ → ℤ) (geom_dataid : ℕ → ℤ) (geom_size : Array2 Vec3)
    (mesh_vertadr : ℕ → ℤ) (mesh_vertnum : ℕ → ℤ) (mesh_graphadr : ℕ → ℤ)
    (mesh_vert : ℕ → Vec3) (mesh_graph : ℕ → ℤ)
    (mesh_polynum : ℕ → ℤ) (mesh_polyadr : ℕ → ℤ)
    (mesh_polynormal : ℕ → Vec3)
    (mesh_polyvertadr : ℕ → ℤ) (mesh_polyvertnum : ℕ → ℤ)
    (mesh_polyvert : ℕ → ℤ) (mesh_polymapadr : ℕ → ℤ)
    (mesh_polymapnum : ℕ → ℤ) (mesh_polymap : ℕ → ℤ)
    (geom_xpos_in : Array2 Vec3) (geom_xmat_in : Array2 Mat33)
    (geoms : ℕ × ℕ) (worldid : ℕ) : Geom × Geom :=
  let g1 := geoms.1
  let g2 := geoms.2
  let geom_type1 := geom_type g1
  let geom_type2 := geom_type g2
  let rot1 := geom_xmat_in.data worldid g1
  let geom1 : Geom :=
    { pos := geom_xpos_in.data worldid g1
      rot := rot1
      size := geom_size.data (worldid % geom_size.nrow) g1
      normal := vec3mk (rot1 0 2) (rot1 1 2) (rot1 2 2) }
  let rot2 := geom_xmat_in.data worldid g2
  let geom2 : Geom :=
    { pos := geom_xpos_in.data worldid g2
      rot := rot2
      size := geom_size.data (worldid % geom_size.nrow) g2
      normal := vec3mk (rot2 0 2) (rot2 1 2) (rot2 2 2) }
  let geom1 :=
    if geom_type1 = GeomType.MESH then
      let dataid := geom_dataid g1
      { geom1 with
        vertadr := if 0 ≤ dataid then mesh_vertadr dataid.toNat else -1
        vertnum := if 0 ≤ dataid then mesh_vertnum dataid.toNat else -1
        graphadr := if 0 ≤ dataid then mesh_graphadr dataid.toNat else -1
        mesh_polynum := if 0 ≤ dataid then mesh_polynum dataid.toNat else -1
        mesh_polyadr := if 0 ≤ dataid then mesh_polyadr dataid.toNat else -1
        vert := mesh_vert
        graph := mesh_graph
        mesh_polynormal := mesh_polynormal
        mesh_polyvertadr := mesh_polyvertadr
        mesh_polyvertnum := mesh_polyvertnum
        mesh_polyvert := mesh_polyvert
        mesh_polymapadr := mesh_polymapadr
        mesh_polymapnum := mesh_polymapnum
        mesh_polymap := mesh_polymap }
    else geom1
  let geom2 :=
    if geom_type2 = GeomType.MESH then
      let dataid := geom_dataid g2
      { geom2 with
        vertadr := if 0 ≤ dataid then mesh_vertadr dataid.toNat else -1
        vertnum := if 0 ≤ dataid then mesh_vertnum dataid.toNat else -1
        graphadr := if 0 ≤ dataid then mesh_graphadr dataid.toNat else -1
        mesh_polynum := if 0 ≤ dataid then mesh_polynum dataid.toNat else -1
        mesh_polyadr := if 0 ≤ dataid then mesh_polyadr dataid.toNat else -1
        vert := mesh_vert
        graph := mesh_graph
        mesh_polynormal := mesh_polynormal
        mesh_polyvertadr := mesh_polyvertadr
        mesh_polyvertnum := mesh_polyvertnum
        mesh_polyvert := mesh_polyvert
        mesh_polymapadr := mesh_polymapadr
        mesh_polymapnum := mesh_polymapnum
        mesh_polymap := mesh_polymap }
    else geom2
  let geom1 := { geom1 with index := -1, margin := 0 }
  let geom2 := { geom2 with index := -1, margin := 0 }
  (geom1, geom2)

/-- The mutable state touched by `write_contact`: the thirteen contact output
arrays and the shared atomic counter `nacon` (collision_core.py lines
176-190).  The 1-d warp output arrays are total functions from the slot
index. -/
structure ContactState where
  contact_dist : ℕ → ℚ
  contact_pos : ℕ → Vec3
  contact_frame : ℕ → Mat33
  contact_includemargin : ℕ → ℚ
  contact_friction : ℕ → Vec5
  contact_solref : ℕ → Vec2
  contact_solreffriction : ℕ → Vec2
  contact_solimp : ℕ → Vec5
  contact_dim : ℕ → ℤ
  contact_geom : ℕ → ℕ × ℕ
  contact_worldid : ℕ → ℕ
  contact_type : ℕ → ℕ
  contact_geomcollisionid : ℕ → ℤ
  nacon : ℕ

/-- Embedding of `write_contact` (collision_core.py lines 157-227), the
atomic contact commit protocol, in its sequential model: `wp.atomic_add`
returns the old counter value `cid` and increments the counter.  Returns the
source's `int` return value (1 iff written and active) together with the
updated state. -/
def write_contact (naconmax_in : ℕ) (id_ : ℤ) (dist_in : ℚ) (pos_in : Vec3)
    (frame_in : Mat33) (margin_in gap_in : ℚ) (condim_in : ℤ)
    (friction_in : Vec5) (solref_in solreffriction_in : Vec2)
    (solimp_in : Vec5) (geoms_in : ℕ × ℕ) (pairid_in : ℤ × ℤ)
    (worldid_in : ℕ) (s : ContactState) : ℤ × ContactState :=
  let active := dist_in < margin_in
  -- skip contact and no collision sensor
  if (pairid_in.1 = -2 ∨ ¬active) ∧ pairid_in.2 = -1 then (0, s)
  else
    let contact_type : ℕ := 0
    let contact_type :=
      if -1 ≤ pairid_in.1 ∧ active then contact_type ||| ContactType.CONSTRAINT
      else contact_type
    let contact_type :=
      if 0 ≤ pairid_in.2 then contact_type ||| ContactType.SENSOR
      else contact_type
    let cid := s.nacon
    let s := { s with nacon := s.nacon + 1 }
    if cid < naconmax_in then
      let s :=
        { s with
          contact_dist := Function.update s.contact_dist cid dist_in
          contact_pos := Function.update s.contact_pos cid pos_in
          contact_frame := Function.update s.contact_frame cid frame_in
          contact_geom := Function.update s.contact_geom cid geoms_in
          contact_worldid := Function.update s.contact_worldid cid worldid_in
          contact_includemargin :=
            Function.update s.contact_includemargin cid (margin_in - gap_in)
          contact_dim := Function.update s.contact_dim cid condim_in
          contact_friction := Function.update s.contact_friction cid friction_in
          contact_solref := Function.update s.contact_solref cid solref_in
          contact_solreffriction :=
            Function.update s.contact_solreffriction cid solreffriction_in
          contact_solimp := Function.update s.contact_solimp cid solimp_in
          contact_type := Function.update s.contact_type cid contact_type
          contact_geomcollisionid :=
            Function.update s.contact_geomcollisionid cid id_ }
      (if active then 1 else 0, s)
    else (0, s)

/-- One candidate contact's worth of arguments to `write_contact`, bundled so
that a sequence of commits can be folded over a list. -/
structure ContactInput where
  id_ : ℤ := 0
  dist : ℚ := 0
  pos : Vec3 := fun _ => 0
  frame : Mat33 := fun _ _ => 0
  margin : ℚ := 0
  gap : ℚ := 0
  condim : ℤ := 0
  friction : Vec5 := fun _ => 0
  solref : Vec2 := fun _ => 0
  solreffriction : Vec2 := fun _ => 0
  solimp : Vec5 := fun _ => 0
  geoms : ℕ × ℕ := (0, 0)
  pairid : ℤ × ℤ := (0, 0)
  worldid : ℕ := 0

/-- `write_contact` applied to a bundled `ContactInput`. -/
def write_contact_input (naconmax : ℕ) (c : ContactInput) (s : ContactState) :
    ℤ × ContactState :=
  write_contact naconmax c.id_ c.dist c.pos c.frame c.margin c.gap c.condim
    c.friction c.solref c.solreffriction c.solimp c.geoms c.pairid c.worldid s

/-- The early-drop condition of `write_contact` (collision_core.py line 199):
the pair wants no constraint (skip sentinel or inactive) and no collision
sensor is attached. -/
def contact_skip (c : ContactInput) : Prop :=
  (c.pairid.1 = -2 ∨ ¬(c.dist < c.margin)) ∧ c.pairid.2 = -1

instance (c : ContactInput) : Decidable (contact_skip c) := by
  unfold contact_skip; infer_instance

/-- A sequence of contact commits into the shared buffer: fold
`write_contact` over a list of candidate contacts (one commit call per
candidate, in list order — the sequential model of atomic arrival order). -/
def commitList (naconmax : ℕ) (inputs : List ContactInput)
    (s : ContactState) : ContactState :=
  inputs.foldl (fun st c => (write_contact_input naconmax c st).2) s

/-- Slot `i` of every contact output array is the same in `t` as in `s` (the
commit protocol performed no write to slot `i`). -/
def untouched (s t : ContactState) (i : ℕ) : Prop :=
  t.contact_dist i = s.contact_dist i ∧
  t.contact_pos i = s.contact_pos i ∧
  t.contact_frame i = s.contact_frame i ∧
  t.contact_includemargin i = s.contact_includemargin i ∧
  t.contact_friction i = s.contact_friction i ∧
  t.contact_solref i = s.contact_solref i ∧
  t.contact_solreffriction i = s.contact_solreffriction i ∧
  t.contact_solimp i = s.contact_solimp i ∧
  t.contact_dim i = s.contact_dim i ∧
  t.contact_geom i = s.contact_geom i ∧
  t.contact_worldid i = s.contact_worldid i ∧
  t.contact_type i = s.contact_type i ∧
  t.contact_geomcollisionid i = s.contact_geomcollisionid i

/-- A concrete all-zero contact buffer state, used as the starting state of
concrete commit sequences. -/
def zeroContactState : ContactState where
  contact_dist := fun _ => 0
  contact_pos := fun _ _ => 0
  contact_frame := fun _ _ _ => 0
  contact_includemargin := fun _ => 0
  contact_friction := fun _ _ => 0
  contact_solref := fun _ _ => 0
  contact_solreffriction := fun _ _ => 0
  contact_solimp := fun _ _ => 0
  contact_dim := fun _ => 0
  contact_geom := fun _ => (0, 0)
  contact_worldid := fun _ => 0
  contact_type := fun _ => 0
  contact_geomcollisionid := fun _ => 0
  nacon := 0

/-- The mix weight computation of `contact_params` (collision_core.py lines
302-305): `safe_div` of `solmix1` by the sum, then the `wp.where` chain of
below-threshold overrides. -/
def mix_weight (solmix1 solmix2 : ℚ) : ℚ :=
  let mix := safe_div solmix1 (solmix1 + solmix2)
  let mix := if solmix1 < MJ_MINVAL ∧ solmix2 < MJ_MINVAL then 0.5 else mix
  let mix := if solmix1 < MJ_MINVAL ∧ MJ_MINVAL ≤ solmix2 then (0 : ℚ) else mix
  let mix := if MJ_MINVAL ≤ solmix1 ∧ solmix2 < MJ_MINVAL then (1 : ℚ) else mix
  mix

/-- The tuple returned by `contact_params` (collision_core.py line 336),
as a record. -/
structure ResolvedParams where
  geoms : ℕ × ℕ
  margin : ℚ
  gap : ℚ
  condim : ℤ
  friction : Vec5
  solref : Vec2
  solreffriction : Vec2
  solimp : Vec5

/-- Embedding of `contact_params` (collision_core.py lines 230-336).
Mirrors the source control flow: the explicit pair-override branch when
`pairid > -1` (pair tables read at row `worldid` directly), otherwise the
geometry mixing branch (geom material arrays read at row
`worldid % arr.shape[0]`); in both cases the resulting friction vector is
floored componentwise at `MJ_MINMU` afterwards (lines 328-334). -/
def contact_params (geom_condim : ℕ → ℤ) (geom_priority : ℕ → ℤ)
    (geom_solmix : Array2 ℚ) (geom_solref : Array2 Vec2)
    (geom_solimp : Array2 Vec5) (geom_friction : Array2 Vec3)
    (geom_margin : Array2 ℚ) (geom_gap : Array2 ℚ)
    (pair_dim : ℕ → ℤ) (pair_solref : Array2 Vec2)
    (pair_solreffriction : Array2 Vec2) (pair_solimp : Array2 Vec5)
    (pair_margin : Array2 ℚ) (pair_gap : Array2 ℚ)
    (pair_friction : Array2 Vec5)
    (collision_pair_in : ℕ → ℕ × ℕ) (collision_pairid_in : ℕ → ℤ × ℤ)
    (cid : ℕ) (worldid : ℕ) : ResolvedParams :=
  let geoms := collision_pair_in cid
  let pairid := (collision_pairid_in cid).1
  let r : ℚ × ℚ × ℤ × Vec5 × Vec2 × Vec2 × Vec5 :=
    if pairid > -1 then
      let margin := pair_margin.data worldid pairid.toNat
      let gap := pair_gap.data worldid pairid.toNat
      let condim := pair_dim pairid.toNat
      let friction := pair_friction.data worldid pairid.toNat
      let solref := pair_solref.data worldid pairid.toNat
      let solreffriction := pair_solreffriction.data worldid pairid.toNat
      let solimp := pair_solimp.data worldid pairid.toNat
      (margin, gap, condim, friction, solref, solreffriction, solimp)
    else
      let g1 := geoms.1
      let g2 := geoms.2
      let solmix_id := worldid % geom_solmix.nrow
      let friction_id := worldid % geom_friction.nrow
      let solref_id := worldid % geom_solref.nrow
      let solimp_id := worldid % geom_solimp.nrow
      let margin_id := worldid % geom_margin.nrow
      let gap_id := worldid % geom_gap.nrow
      let solmix1 := geom_solmix.data solmix_id g1
      let solmix2 := geom_solmix.data solmix_id g2
      let condim1 := geom_condim g1
      let condim2 := geom_condim g2
      -- priority
      let p1 := geom_priority g1
      let p2 := geom_priority g2
      let mcf : ℚ × ℤ × Vec3 :=
        if p1 > p2 then ((1 : ℚ), condim1, geom_friction.data friction_id g1)
        else if p2 > p1 then ((0 : ℚ), condim2, geom_friction.data friction_id g2)
        else
          (mix_weight solmix1 solmix2, max condim1 condim2,
            v3max (geom_friction.data friction_id g1)
              (geom_friction.data friction_id g2))
      let mix := mcf.1
      let condim := mcf.2.1
      let max_geom_friction := mcf.2.2
      let friction :=
        vec5mk (max_geom_friction 0) (max_geom_friction 0)
          (max_geom_friction 1) (max_geom_friction 2) (max_geom_friction 2)
      let solref :=
        if (0 : ℚ) < geom_solref.data solref_id g1 0 ∧
            (0 : ℚ) < geom_solref.data solref_id g2 0 then
          v2add (v2smul mix (geom_solref.data solref_id g1))
            (v2smul (1 - mix) (geom_solref.data solref_id g2))
        else
          v2min (geom_solref.data solref_id g1) (geom_solref.data solref_id g2)
      let solreffriction := vec2mk 0 0
      let solimp :=
        v5add (v5smul mix (geom_solimp.data solimp_id g1))
          (v5smul (1 - mix) (geom_solimp.data solimp_id g2))
      -- geom priority is ignored
      let margin := geom_margin.data margin_id g1 + geom_margin.data margin_id g2
      let gap := geom_gap.data gap_id g1 + geom_gap.data gap_id g2
      (margin, gap, condim, friction, solref, solreffriction, solimp)
  match r with
  | (margin, gap, condim, friction, solref, solreffriction, solimp) =>
    { geoms := geoms
      margin := margin
      gap := gap
      condim := condim
      friction :=
        vec5mk (max MJ_MINMU (friction 0)) (max MJ_MINMU (friction 1))
          (max MJ_MINMU (friction 2)) (max MJ_MINMU (friction 3))
          (max MJ_MINMU (friction 4))
      solref := solref
      solreffriction := solreffriction
      solimp := solimp }

/-- Component 0 of a `vec5` literal. -/
theorem vec5mk_app0 (a b c d e : ℚ) : vec5mk a b c d e 0 = a := rfl

/-- Component 1 of a `vec5` literal. -/
theorem vec5mk_app1 (a b c d e : ℚ) : vec5mk a b c d e 1 = b := rfl

/-- Component 2 of a `vec5` literal. -/
theorem vec5mk_app2 (a b c d e : ℚ) : vec5mk a b c d e 2 = c := rfl

/-- Component 3 of a `vec5` literal. -/
theorem vec5mk_app3 (a b c d e : ℚ) : vec5mk a b c d e 3 = d := rfl

/-- Component 4 of a `vec5` literal. -/
theorem vec5mk_app4 (a b c d e : ℚ) : vec5mk a b c d e 4 = e := rfl

/-- Slot preservation is reflexive. -/
theorem untouched_refl (s : ContactState) (i : ℕ) : untouched s s i :=
  ⟨rfl, rfl, rfl, rfl, rfl, rfl, rfl, rfl, rfl, rfl, rfl, rfl, rfl⟩

/-- Slot preservation composes. -/
theorem untouched_trans {s t u : ContactState} {i : ℕ}
    (h1 : untouched s t i) (h2 : untouched t u i) : untouched s u i := by
  obtain ⟨a1, a2, a3, a4, a5, a6, a7, a8, a9, a10, a11, a12, a13⟩ := h1
  obtain ⟨b1, b2, b3, b4, b5, b6, b7, b8, b9, b10, b11, b12, b13⟩ := h2
  exact ⟨b1.trans a1, b2.trans a2, b3.trans a3, b4.trans a4, b5.trans a5,
    b6.trans a6, b7.trans a7, b8.trans a8, b9.trans a9, b10.trans a10,
    b11.trans a11, b12.trans a12, b13.trans a13⟩

/-- The drop condition of `write_contact` (line 199), restated with
`margin ≤ dist` for "contact not active". -/
theorem contact_skip_iff (c : ContactInput) :
    contact_skip c ↔
      (c.pairid.1 = -2 ∨ c.margin ≤ c.dist) ∧ c.pairid.2 = -1 := by
  unfold contact_skip
  rw [not_lt]

/-- A dropped commit returns 0 and leaves the state unchanged. -/
theorem write_contact_skip (n : ℕ) (c : ContactInput) (s : ContactState)
    (h : contact_skip c) : write_contact_input n c s = (0, s) := by
  unfold write_contact_input write_contact
  rw [if_pos]
  exact h

/-- A non-dropped commit always increments the shared counter by one
(the atomic reservation happens before the bounds check). -/
theorem write_contact_nacon_succ (n : ℕ) (c : ContactInput) (s : ContactState)
    (h : ¬ contact_skip c) :
    ((write_contact_input n c s).2).nacon = s.nacon + 1 := by
  simp only [write_contact_input, write_contact]
  split
  · next hc => exact absurd hc h
  · split
    · split <;> rfl
    · rfl

/-- The shared counter never decreases across a commit call. -/
theorem write_contact_nacon_mono (n : ℕ) (c : ContactInput)
    (s : ContactState) :
    s.nacon ≤ ((write_contact_input n c s).2).nacon := by
  simp only [write_contact_input, write_contact]
  split
  · exact le_refl _
  · split
    · split <;> exact Nat.le_succ _
    · exact Nat.le_succ _

/-- A commit call writes at most to slot `s.nacon`: every other slot of
every output array is untouched. -/
theorem write_contact_untouched_ne (n : ℕ) (c : ContactInput)
    (s : ContactState) (i : ℕ) (h : i ≠ s.nacon) :
    untouched s ((write_contact_input n c s).2) i := by
  simp only [write_contact_input, write_contact]
  split
  · exact ⟨rfl, rfl, rfl, rfl, rfl, rfl, rfl, rfl, rfl, rfl, rfl, rfl, rfl⟩
  · split
    · split <;>
        exact ⟨Function.update_noteq h _ _, Function.update_noteq h _ _,
          Function.update_noteq h _ _, Function.update_noteq h _ _,
          Function.update_noteq h _ _, Function.update_noteq h _ _,
          Function.update_noteq h _ _, Function.update_noteq h _ _,
          Function.update_noteq h _ _, Function.update_noteq h _ _,
          Function.update_noteq h _ _, Function.update_noteq h _ _,
          Function.update_noteq h _ _⟩
    · exact ⟨rfl, rfl, rfl, rfl, rfl, rfl, rfl, rfl, rfl, rfl, rfl, rfl, rfl⟩

/-- A commit call never writes at or beyond the capacity. -/
theorem write_contact_untouched_ge (n : ℕ) (c : ContactInput)
    (s : ContactState) (i : ℕ) (h : n ≤ i) :
    untouched s ((write_contact_input n c s).2) i := by
  rcases eq_or_ne i s.nacon with hi | hi
  · simp only [write_contact_input, write_contact]
    split
    · exact untouched_refl s i
    · split
      · next hc => exact absurd (hi ▸ hc) (not_lt.mpr h)
      · exact untouched_refl s i
  · exact write_contact_untouched_ne n c s i hi

/-- An in-capacity, non-dropped commit writes the full contact record at the
reserved slot `s.nacon` and returns the activity flag (collision_core.py
lines 210-226); `includemargin` is `margin - gap` and the classification is
the `or` of the two independent flag bits. -/
theorem write_contact_writes (n : ℕ) (c : ContactInput) (s : ContactState)
    (hskip : ¬ contact_skip c) (hcap : s.nacon < n) :
    (write_contact_input n c s).1 = (if c.dist < c.margin then 1 else 0) ∧
    ((write_contact_input n c s).2).nacon = s.nacon + 1 ∧
    ((write_contact_input n c s).2).contact_dist s.nacon = c.dist ∧
    ((write_contact_input n c s).2).contact_pos s.nacon = c.pos ∧
    ((write_contact_input n c s).2).contact_frame s.nacon = c.frame ∧
    ((write_contact_input n c s).2).contact_includemargin s.nacon
      = c.margin - c.gap ∧
    ((write_contact_input n c s).2).contact_friction s.nacon = c.friction ∧
    ((write_contact_input n c s).2).contact_solref s.nacon = c.solref ∧
    ((write_contact_input n c s).2).contact_solreffriction s.nacon
      = c.solreffriction ∧
    ((write_contact_input n c s).2).contact_solimp s.nacon = c.solimp ∧
    ((write_contact_input n c s).2).contact_dim s.nacon = c.condim ∧
    ((write_contact_input n c s).2).contact_geom s.nacon = c.geoms ∧
    ((write_contact_input n c s).2).contact_worldid s.nacon = c.worldid ∧
    ((write_contact_input n c s).2).contact_geomcollisionid s.nacon = c.id_ ∧
    ((write_contact_input n c s).2).contact_type s.nacon
      = ((if -1 ≤ c.pairid.1 ∧ c.dist < c.margin then ContactType.CONSTRAINT
          else 0) |||
         (if 0 ≤ c.pairid.2 then ContactType.SENSOR else 0)) := by
  have hskip' :
      ¬((c.pairid.1 = -2 ∨ ¬(c.dist < c.margin)) ∧ c.pairid.2 = -1) := hskip
  simp only [write_contact_input, write_contact, if_neg hskip', if_pos hcap,
    Function.update_same, true_and, and_true, and_self]
  by_cases hA : -1 ≤ c.pairid.1 ∧ c.dist < c.margin <;>
    by_cases hB : (0 : ℤ) ≤ c.pairid.2 <;>
      simp [hA, hB, ContactType.CONSTRAINT, ContactType.SENSOR]

/-- A non-dropped commit whose reserved slot is at or beyond the capacity
returns 0, still increments the counter, and writes nothing. -/
theorem write_contact_overflow (n : ℕ) (c : ContactInput) (s : ContactState)
    (hskip : ¬ contact_skip c) (hcap : n ≤ s.nacon) :
    (write_contact_input n c s).1 = 0 ∧
    ((write_contact_input n c s).2).nacon = s.nacon + 1 ∧
    ∀ i, untouched s ((write_contact_input n c s).2) i := by
  refine ⟨?_, write_contact_nacon_succ n c s hskip, fun i => ?_⟩
  · simp only [write_contact_input, write_contact]
    split
    · rfl
    · rw [if_neg (not_lt.mpr hcap)]
  · rcases eq_or_ne i s.nacon with hi | hi
    · exact hi ▸ write_contact_untouched_ge n c s s.nacon hcap
    · exact write_contact_untouched_ne n c s i hi

/-- Unfolding one step of a commit sequence. -/
theorem commitList_cons (n : ℕ) (c : ContactInput) (cs : List ContactInput)
    (s : ContactState) :
    commitList n (c :: cs) s
      = commitList n cs ((write_contact_input n c s).2) := rfl

/-- No commit sequence ever writes at or beyond the capacity. -/
theorem commitList_untouched_ge (n : ℕ) (inputs : List ContactInput)
    (s : ContactState) (i : ℕ) (h : n ≤ i) :
    untouched s (commitList n inputs s) i := by
  induction inputs generalizing s with
  | nil => exact untouched_refl s i
  | cons c cs ih =>
      rw [commitList_cons]
      exact untouched_trans (write_contact_untouched_ge n c s i h) (ih _)

/-- A commit sequence never writes below the starting counter value. -/
theorem commitList_untouched_lt (n : ℕ) (inputs : List ContactInput)
    (s : ContactState) (i : ℕ) (h : i < s.nacon) :
    untouched s (commitList n inputs s) i := by
  induction inputs generalizing s with
  | nil => exact untouched_refl s i
  | cons c cs ih =>
      rw [commitList_cons]
      refine untouched_trans
        (write_contact_untouched_ne n c s i (Nat.ne_of_lt h)) (ih _ ?_)
      exact lt_of_lt_of_le h (write_contact_nacon_mono n c s)

/-- A sequence of non-dropped commits adds exactly its length to the shared
counter, whatever the capacity. -/
theorem commitList_nacon (n : ℕ) (inputs : List ContactInput)
    (s : ContactState) (h : ∀ c ∈ inputs, ¬ contact_skip c) :
    (commitList n inputs s).nacon = s.nacon + inputs.length := by
  induction inputs generalizing s with
  | nil => rfl
  | cons c cs ih =>
      rw [commitList_cons, ih _ (fun x hx => h x (List.mem_cons_of_mem c hx)),
        write_contact_nacon_succ n c s (h c (List.mem_cons_self c cs))]
      simp only [List.length_cons]
      omega

/-- After a sequence of non-dropped commits, every in-capacity slot that the
sequence reached holds the distance of the corresponding input. -/
theorem commitList_dist (n : ℕ) (inputs : List ContactInput)
    (s : ContactState) (i : ℕ) (h : ∀ c ∈ inputs, ¬ contact_skip c)
    (h1 : s.nacon ≤ i) (h2 : i < n) (h3 : i < s.nacon + inputs.length) :
    (commitList n inputs s).contact_dist i
      = (inputs.getD (i - s.nacon) {}).dist := by
  induction inputs generalizing s with
  | nil => simp only [List.length_nil, Nat.add_zero] at h3; omega
  | cons c cs ih =>
      rw [commitList_cons]
      have hskip := h c (List.mem_cons_self c cs)
      have hmem : ∀ x ∈ cs, ¬ contact_skip x :=
        fun x hx => h x (List.mem_cons_of_mem c hx)
      have hsucc := write_contact_nacon_succ n c s hskip
      rcases eq_or_lt_of_le h1 with hi | hi
      · have hlt : i < ((write_contact_input n c s).2).nacon := by omega
        have hu := commitList_untouched_lt n cs _ i hlt
        rw [hu.1, ← hi]
        have hw := write_contact_writes n c s hskip (hi ▸ h2)
        rw [hw.2.2.1]
        simp [hi]
      · have hle : ((write_contact_input n c s).2).nacon ≤ i := by omega
        have hlen : i < ((write_contact_input n c s).2).nacon + cs.length := by
          simp only [List.length_cons] at h3; omega
        rw [ih _ hmem hle hlen, hsucc]
        have hd : i - s.nacon = (i - (s.nacon + 1)) + 1 := by omega
        rw [hd, List.getD_cons_succ]

/-- The four regimes of the `contact_params` mix weight (collision_core.py
lines 302-305): plain ratio when both solmix values are at least the
minimum-value floor, and the three below-threshold overrides. -/
theorem mix_weight_cases (s1 s2 : ℚ) :
    (MJ_MINVAL ≤ s1 → MJ_MINVAL ≤ s2 → mix_weight s1 s2 = s1 / (s1 + s2)) ∧
    (s1 < MJ_MINVAL → s2 < MJ_MINVAL → mix_weight s1 s2 = 0.5) ∧
    (s1 < MJ_MINVAL → MJ_MINVAL ≤ s2 → mix_weight s1 s2 = 0) ∧
    (MJ_MINVAL ≤ s1 → s2 < MJ_MINVAL → mix_weight s1 s2 = 1) := by
  have hm : (0 : ℚ) < MJ_MINVAL := by norm_num [MJ_MINVAL]
  refine ⟨fun h1 h2 => ?_, fun h1 h2 => ?_, fun h1 h2 => ?_, fun h1 h2 => ?_⟩
  · have hsum : s1 + s2 ≠ 0 := by
      have : (0 : ℚ) < s1 + s2 := by linarith
      exact ne_of_gt this
    have hc1 : ¬(s1 < MJ_MINVAL ∧ s2 < MJ_MINVAL) :=
      fun hc => absurd hc.1 (not_lt.mpr h1)
    have hc2 : ¬(s1 < MJ_MINVAL ∧ MJ_MINVAL ≤ s2) :=
      fun hc => absurd hc.1 (not_lt.mpr h1)
    have hc3 : ¬(MJ_MINVAL ≤ s1 ∧ s2 < MJ_MINVAL) :=
      fun hc => absurd hc.2 (not_lt.mpr h2)
    simp only [mix_weight, safe_div, if_neg hc1, if_neg hc2, if_neg hc3,
      if_pos hsum]
  · have hc2 : ¬(s1 < MJ_MINVAL ∧ MJ_MINVAL ≤ s2) :=
      fun hc => absurd hc.2 (not_le.mpr h2)
    have hc3 : ¬(MJ_MINVAL ≤ s1 ∧ s2 < MJ_MINVAL) :=
      fun hc => absurd hc.1 (not_le.mpr h1)
    simp only [mix_weight, if_pos (And.intro h1 h2), if_neg hc2, if_neg hc3]
  · have hc1 : ¬(s1 < MJ_MINVAL ∧ s2 < MJ_MINVAL) :=
      fun hc => absurd hc.2 (not_lt.mpr h2)
    have hc3 : ¬(MJ_MINVAL ≤ s1 ∧ s2 < MJ_MINVAL) :=
      fun hc => absurd hc.1 (not_le.mpr h1)
    simp only [mix_weight, if_neg hc1, if_pos (And.intro h1 h2), if_neg hc3]
  · simp only [mix_weight, if_pos (And.intro h1 h2)]

/-- Every component of the friction vector returned by `contact_params` is
at least the minimum coefficient floor (the componentwise clamp of
collision_core.py lines 328-334, applied after both branches). -/
theorem contact_params_friction_floor (geom_condim : ℕ → ℤ)
    (geom_priority : ℕ → ℤ) (geom_solmix : Array2 ℚ)
    (geom_solref : Array2 Vec2) (geom_solimp : Array2 Vec5)
    (geom_friction : Array2 Vec3) (geom_margin : Array2 ℚ)
    (geom_gap : Array2 ℚ) (pair_dim : ℕ → ℤ) (pair_solref : Array2 Vec2)
    (pair_solreffriction : Array2 Vec2) (pair_solimp : Array2 Vec5)
    (pair_margin : Array2 ℚ) (pair_gap : Array2 ℚ)
    (pair_friction : Array2 Vec5)
    (collision_pair_in : ℕ → ℕ × ℕ) (collision_pairid_in : ℕ → ℤ × ℤ)
    (cid : ℕ) (worldid : ℕ) (i : Fin 5) :
    MJ_MINMU ≤
      (contact_params geom_condim geom_priority geom_solmix geom_solref
        geom_solimp geom_friction geom_margin geom_gap pair_dim pair_solref
        pair_solreffriction pair_solimp pair_margin pair_gap pair_friction
        collision_pair_in collision_pairid_in cid worldid).friction i := by
  simp only [contact_params]
  split
  all_goals
    fin_cases i <;>
      simp only [vec5mk, Matrix.cons_val_zero, Matrix.cons_val_one,
        Matrix.head_cons, Matrix.cons_val_two, Matrix.tail_cons,
        Matrix.cons_val_three, Matrix.cons_val_four] <;>
      exact le_max_left _ _

/-- C2: a call to `write_contact` drops the contact early — returns 0,
writes to no output array, and leaves the shared counter `nacon` unchanged
(the whole state is returned as given) — if and only if
(`pairid[0] = -2` or `dist ≥ margin`) and `pairid[1] = -1`; in every other
case the counter is incremented exactly once. -/
theorem claim_C2 (n : ℕ) (c : ContactInput) (s : ContactState) :
    (((write_contact_input n c s).1 = 0 ∧ (write_contact_input n c s).2 = s)
      ↔ ((c.pairid.1 = -2 ∨ c.margin ≤ c.dist) ∧ c.pairid.2 = -1)) ∧
    (¬((c.pairid.1 = -2 ∨ c.margin ≤ c.dist) ∧ c.pairid.2 = -1) →
      ((write_contact_input n c s).2).nacon = s.nacon + 1) := by
  have hiff := contact_skip_iff c
  constructor
  · constructor
    · rintro ⟨h0, hs⟩
      by_contra hcond
      have hskip : ¬ contact_skip c := fun hk => hcond (hiff.mp hk)
      have hn := write_contact_nacon_succ n c s hskip
      rw [hs] at hn
      omega
    · intro hcond
      rw [write_contact_skip n c s (hiff.mpr hcond)]
      exact ⟨rfl, rfl⟩
  · intro hcond
    exact write_contact_nacon_succ n c s (fun hk => hcond (hiff.mp hk))

/-- Witness for C2 at a concrete dropped candidate: skip tag `(-2, -1)` and
`dist ≥ margin` yield return value 0 and an unchanged state. -/
theorem claim_C2_witness :
    (write_contact_input 4
      ({ dist := 1, margin := 0, pairid := (-2, -1) } : ContactInput)
      zeroContactState).1 = 0 ∧
    (write_contact_input 4
      ({ dist := 1, margin := 0, pairid := (-2, -1) } : ContactInput)
      zeroContactState).2 = zeroContactState :=
  (claim_C2 4 { dist := 1, margin := 0, pairid := (-2, -1) }
    zeroContactState).1.mpr (by decide)

/-- C3: an in-capacity commit writes the full record (with
`includemargin = margin - gap`) and returns `1` iff `dist < margin`; an
at-or-over-capacity commit writes nothing, returns 0, and still increments
the counter; consequently a sequence of `capacity + K` non-dropped commits
starting from a zero counter ends with counter `capacity + K`, leaves every
slot at index `≥ capacity` untouched, and fills every slot `< capacity`
with the corresponding record. -/
theorem claim_C3 :
    (∀ (n : ℕ) (c : ContactInput) (s : ContactState),
      ¬ contact_skip c → s.nacon < n →
      (write_contact_input n c s).1 = (if c.dist < c.margin then 1 else 0) ∧
      ((write_contact_input n c s).2).contact_dist s.nacon = c.dist ∧
      ((write_contact_input n c s).2).contact_pos s.nacon = c.pos ∧
      ((write_contact_input n c s).2).contact_frame s.nacon = c.frame ∧
      ((write_contact_input n c s).2).contact_includemargin s.nacon
        = c.margin - c.gap ∧
      ((write_contact_input n c s).2).contact_friction s.nacon = c.friction ∧
      ((write_contact_input n c s).2).contact_solref s.nacon = c.solref ∧
      ((write_contact_input n c s).2).contact_solreffriction s.nacon
        = c.solreffriction ∧
      ((write_contact_input n c s).2).contact_solimp s.nacon = c.solimp ∧
      ((write_contact_input n c s).2).contact_dim s.nacon = c.condim ∧
      ((write_contact_input n c s).2).contact_geom s.nacon = c.geoms ∧
      ((write_contact_input n c s).2).contact_worldid s.nacon = c.worldid ∧
      ((write_contact_input n c s).2).contact_geomcollisionid s.nacon
        = c.id_ ∧
      ((write_contact_input n c s).2).nacon = s.nacon + 1) ∧
    (∀ (n : ℕ) (c : ContactInput) (s : ContactState),
      ¬ contact_skip c → n ≤ s.nacon →
      (write_contact_input n c s).1 = 0 ∧
      ((write_contact_input n c s).2).nacon = s.nacon + 1 ∧
      ∀ i, untouched s ((write_contact_input n c s).2) i) ∧
    (∀ (n K : ℕ) (inputs : List ContactInput) (s : ContactState),
      (∀ c ∈ inputs, ¬ contact_skip c) → inputs.length = n + K →
      s.nacon = 0 →
      (commitList n inputs s).nacon = n + K ∧
      (∀ i, n ≤ i → untouched s (commitList n inputs s) i) ∧
      (∀ i, i < n →
        (commitList n inputs s).contact_dist i
          = (inputs.getD i {}).dist)) := by
  refine ⟨?_, ?_, ?_⟩
  · intro n c s hskip hcap
    have hw := write_contact_writes n c s hskip hcap
    exact ⟨hw.1, hw.2.2.1, hw.2.2.2.1, hw.2.2.2.2.1, hw.2.2.2.2.2.1,
      hw.2.2.2.2.2.2.1, hw.2.2.2.2.2.2.2.1, hw.2.2.2.2.2.2.2.2.1,
      hw.2.2.2.2.2.2.2.2.2.1, hw.2.2.2.2.2.2.2.2.2.2.1,
      hw.2.2.2.2.2.2.2.2.2.2.2.1, hw.2.2.2.2.2.2.2.2.2.2.2.2.1,
      hw.2.2.2.2.2.2.2.2.2.2.2.2.2.1, hw.2.1⟩
  · intro n c s hskip hcap
    exact write_contact_overflow n c s hskip hcap
  · intro n K inputs s hskip hlen hz
    refine ⟨?_, fun i hi => commitList_untouched_ge n inputs s i hi, ?_⟩
    · rw [commitList_nacon n inputs s hskip, hz, hlen, Nat.zero_add]
    · intro i hi
      have hd := commitList_dist n inputs s i hskip (by omega) hi (by omega)
      rw [hd, hz, Nat.sub_zero]

/-- Witness for C3: committing capacity `1 + 1` non-dropped contacts into a
capacity-1 buffer ends with counter 2 and slot 0 holding the first input's
distance. -/
theorem claim_C3_witness :
    (commitList 1
      [({ dist := 0, margin := 1, pairid := (-1, -1) } : ContactInput),
       ({ dist := 7, margin := 9, pairid := (-1, -1) } : ContactInput)]
      zeroContactState).nacon = 1 + 1 ∧
    (commitList 1
      [({ dist := 0, margin := 1, pairid := (-1, -1) } : ContactInput),
       ({ dist := 7, margin := 9, pairid := (-1, -1) } : ContactInput)]
      zeroContactState).contact_dist 0
      = ([({ dist := 0, margin := 1, pairid := (-1, -1) } : ContactInput),
          ({ dist := 7, margin := 9, pairid := (-1, -1) } : ContactInput)].getD
            0 {}).dist := by
  have h := claim_C3.2.2 1 1
    [({ dist := 0, margin := 1, pairid := (-1, -1) } : ContactInput),
     ({ dist := 7, margin := 9, pairid := (-1, -1) } : ContactInput)]
    zeroContactState (by decide) (by decide) rfl
  exact ⟨h.1, h.2.2 0 (by decide)⟩

/-- C4: for every input to `contact_params` — explicit pair-override branch
or geometry-mixing branch — each of the 5 components of the returned
friction vector is at least the minimum coefficient floor `MJ_MINMU`,
including when geometry or pair friction entries are zero. -/
theorem claim_C4 (geom_condim : ℕ → ℤ)
    (geom_priority : ℕ → ℤ) (geom_solmix : Array2 ℚ)
    (geom_solref : Array2 Vec2) (geom_solimp : Array2 Vec5)
    (geom_friction : Array2 Vec3) (geom_margin : Array2 ℚ)
    (geom_gap : Array2 ℚ) (pair_dim : ℕ → ℤ) (pair_solref : Array2 Vec2)
    (pair_solreffriction : Array2 Vec2) (pair_solimp : Array2 Vec5)
    (pair_margin : Array2 ℚ) (pair_gap : Array2 ℚ)
    (pair_friction : Array2 Vec5)
    (collision_pair_in : ℕ → ℕ × ℕ) (collision_pairid_in : ℕ → ℤ × ℤ)
    (cid : ℕ) (worldid : ℕ) (i : Fin 5) :
    MJ_MINMU ≤
      (contact_params geom_condim geom_priority geom_solmix geom_solref
        geom_solimp geom_friction geom_margin geom_gap pair_dim pair_solref
        pair_solreffriction pair_solimp pair_margin pair_gap pair_friction
        collision_pair_in collision_pairid_in cid worldid).friction i :=
  contact_params_friction_floor geom_condim geom_priority geom_solmix
    geom_solref geom_solimp geom_friction geom_margin geom_gap pair_dim
    pair_solref pair_solreffriction pair_solimp pair_margin pair_gap
    pair_friction collision_pair_in collision_pairid_in cid worldid i

/-- Witness for C4 at a concrete zero-friction geometry pair. -/
theorem claim_C4_witness :
    MJ_MINMU ≤
      (contact_params (fun _ => 3) (fun _ => 0)
        ⟨1, fun _ _ => 1⟩ ⟨1, fun _ _ => vec2mk 1 1⟩
        ⟨1, fun _ _ => vec5mk 1 1 1 1 1⟩ ⟨1, fun _ _ => vec3mk 0 0 0⟩
        ⟨1, fun _ _ => 0⟩ ⟨1, fun _ _ => 0⟩
        (fun _ => 3) ⟨1, fun _ _ => vec2mk 1 1⟩ ⟨1, fun _ _ => vec2mk 0 0⟩
        ⟨1, fun _ _ => vec5mk 1 1 1 1 1⟩ ⟨1, fun _ _ => 0⟩ ⟨1, fun _ _ => 0⟩
        ⟨1, fun _ _ => vec5mk 0 0 0 0 0⟩
        (fun _ => (0, 1)) (fun _ => (-1, -1)) 0 0).friction 0 :=
  claim_C4 (fun _ => 3) (fun _ => 0)
    ⟨1, fun _ _ => 1⟩ ⟨1, fun _ _ => vec2mk 1 1⟩
    ⟨1, fun _ _ => vec5mk 1 1 1 1 1⟩ ⟨1, fun _ _ => vec3mk 0 0 0⟩
    ⟨1, fun _ _ => 0⟩ ⟨1, fun _ _ => 0⟩
    (fun _ => 3) ⟨1, fun _ _ => vec2mk 1 1⟩ ⟨1, fun _ _ => vec2mk 0 0⟩
    ⟨1, fun _ _ => vec5mk 1 1 1 1 1⟩ ⟨1, fun _ _ => 0⟩ ⟨1, fun _ _ => 0⟩
    ⟨1, fun _ _ => vec5mk 0 0 0 0 0⟩
    (fun _ => (0, 1)) (fun _ => (-1, -1)) 0 0 0

/-- C8: in a written contact record, the `CONSTRAINT` bit of the type field
is set iff `pairid[0] ≥ -1` and `dist < margin`, and the `SENSOR` bit is
set iff `pairid[1] ≥ 0`, as independent bits; in particular a candidate
with tag `(-2, s)`, `s ≥ 0`, and `dist ≥ margin` is still written, with
`SENSOR` set and `CONSTRAINT` clear, and the call returns 0. -/
theorem claim_C8 (n : ℕ) (c : ContactInput) (s : ContactState)
    (hskip : ¬ contact_skip c) (hcap : s.nacon < n) :
    ((((write_contact_input n c s).2).contact_type s.nacon).testBit 0 = true
      ↔ (-1 ≤ c.pairid.1 ∧ c.dist < c.margin)) ∧
    ((((write_contact_input n c s).2).contact_type s.nacon).testBit 1 = true
      ↔ 0 ≤ c.pairid.2) ∧
    (c.pairid.1 = -2 → 0 ≤ c.pairid.2 → c.margin ≤ c.dist →
      ((write_contact_input n c s).2).contact_type s.nacon
        = ContactType.SENSOR ∧
      (write_contact_input n c s).1 = 0) := by
  have hw := write_contact_writes n c s hskip hcap
  have ht := hw.2.2.2.2.2.2.2.2.2.2.2.2.2.2
  have hr := hw.1
  refine ⟨?_, ?_, ?_⟩
  · rw [ht]
    by_cases hA : (-1 ≤ c.pairid.1 ∧ c.dist < c.margin) <;>
      by_cases hB : (0 : ℤ) ≤ c.pairid.2
    · rw [if_pos hA, if_pos hB]; exact iff_of_true (by decide) hA
    · rw [if_pos hA, if_neg hB]; exact iff_of_true (by decide) hA
    · rw [if_neg hA, if_pos hB]; exact iff_of_false (by decide) hA
    · rw [if_neg hA, if_neg hB]; exact iff_of_false (by decide) hA
  · rw [ht]
    by_cases hA : (-1 ≤ c.pairid.1 ∧ c.dist < c.margin) <;>
      by_cases hB : (0 : ℤ) ≤ c.pairid.2
    · rw [if_pos hA, if_pos hB]; exact iff_of_true (by decide) hB
    · rw [if_pos hA, if_neg hB]; exact iff_of_false (by decide) hB
    · rw [if_neg hA, if_pos hB]; exact iff_of_true (by decide) hB
    · rw [if_neg hA, if_neg hB]; exact iff_of_false (by decide) hB
  · intro hm2 hsens hinact
    have hA : ¬(-1 ≤ c.pairid.1 ∧ c.dist < c.margin) := by
      rintro ⟨ha, -⟩
      rw [hm2] at ha
      omega
    constructor
    · rw [ht, if_neg hA, if_pos hsens]
      decide
    · rw [hr, if_neg (not_lt.mpr hinact)]

/-- Witness for C8 at a concrete sensor-only candidate: tag `(-2, 5)` and
`dist ≥ margin` still produce a record typed `SENSOR` with return value 0. -/
theorem claim_C8_witness :
    ((write_contact_input 3
      ({ dist := 2, margin := 1, pairid := (-2, 5) } : ContactInput)
      zeroContactState).2).contact_type 0 = ContactType.SENSOR ∧
    (write_contact_input 3
      ({ dist := 2, margin := 1, pairid := (-2, 5) } : ContactInput)
      zeroContactState).1 = 0 :=
  (claim_C8 3 { dist := 2, margin := 1, pairid := (-2, 5) }
    zeroContactState (by decide) (by decide)).2.2 rfl (by decide) (by decide)

/-- Counterexample to C5 as stated: a pair with strictly higher priority on
geometry 0 and winner friction triple `(0, 0, 0)` — the claim asserts the
returned friction exactly equals the winner's triple expanded to 5
components, i.e. `vec5mk 0 0 0 0 0`, but the returned friction is floored
at `MJ_MINMU` afterwards, so it differs. -/
theorem claim_C5_counterexample :
    (contact_params (fun _ => 3) (fun g => if g = 0 then 1 else 0)
      ⟨1, fun _ _ => 1⟩ ⟨1, fun _ _ => vec2mk 1 1⟩
      ⟨1, fun _ _ => vec5mk 1 1 1 1 1⟩ ⟨1, fun _ _ => vec3mk 0 0 0⟩
      ⟨1, fun _ _ => 0⟩ ⟨1, fun _ _ => 0⟩
      (fun _ => 3) ⟨1, fun _ _ => vec2mk 1 1⟩ ⟨1, fun _ _ => vec2mk 0 0⟩
      ⟨1, fun _ _ => vec5mk 1 1 1 1 1⟩ ⟨1, fun _ _ => 0⟩ ⟨1, fun _ _ => 0⟩
      ⟨1, fun _ _ => vec5mk 1 1 1 1 1⟩
      (fun _ => (0, 1)) (fun _ => (-1, -1)) 0 0).friction
      ≠ vec5mk 0 0 0 0 0 := by
  intro h
  have hle := contact_params_friction_floor (fun _ => 3)
    (fun g => if g = 0 then 1 else 0)
    ⟨1, fun _ _ => 1⟩ ⟨1, fun _ _ => vec2mk 1 1⟩
    ⟨1, fun _ _ => vec5mk 1 1 1 1 1⟩ ⟨1, fun _ _ => vec3mk 0 0 0⟩
    ⟨1, fun _ _ => 0⟩ ⟨1, fun _ _ => 0⟩
    (fun _ => 3) ⟨1, fun _ _ => vec2mk 1 1⟩ ⟨1, fun _ _ => vec2mk 0 0⟩
    ⟨1, fun _ _ => vec5mk 1 1 1 1 1⟩ ⟨1, fun _ _ => 0⟩ ⟨1, fun _ _ => 0⟩
    ⟨1, fun _ _ => vec5mk 1 1 1 1 1⟩
    (fun _ => (0, 1)) (fun _ => (-1, -1)) 0 0 0
  rw [h, vec5mk_app0] at hle
  norm_num [MJ_MINMU] at hle

/-- C5 amended: in the no-override branch, a strict priority winner
determines `condim` and the friction expansion — the returned friction is
the winner's 3-component triple expanded to 5 components (sliding
duplicated, torsional once, rolling duplicated) and then floored
componentwise at `MJ_MINMU`; with equal priorities, `condim` is the max of
the two and the expansion applies to the componentwise max of the two
triples.  The statement quantifies over all solmix arrays, so the winner
cases are independent of solmix. -/
theorem claim_C5_amended (geom_condim : ℕ → ℤ)
    (geom_priority : ℕ → ℤ) (geom_solmix : Array2 ℚ)
    (geom_solref : Array2 Vec2) (geom_solimp : Array2 Vec5)
    (geom_friction : Array2 Vec3) (geom_margin : Array2 ℚ)
    (geom_gap : Array2 ℚ) (pair_dim : ℕ → ℤ) (pair_solref : Array2 Vec2)
    (pair_solreffriction : Array2 Vec2) (pair_solimp : Array2 Vec5)
    (pair_margin : Array2 ℚ) (pair_gap : Array2 ℚ)
    (pair_friction : Array2 Vec5)
    (collision_pair_in : ℕ → ℕ × ℕ) (collision_pairid_in : ℕ → ℤ × ℤ)
    (cid : ℕ) (worldid : ℕ)
    (hpair : (collision_pairid_in cid).1 ≤ -1) :
    (geom_priority (collision_pair_in cid).1 >
        geom_priority (collision_pair_in cid).2 →
      (contact_params geom_condim geom_priority geom_solmix geom_solref
        geom_solimp geom_friction geom_margin geom_gap pair_dim pair_solref
        pair_solreffriction pair_solimp pair_margin pair_gap pair_friction
        collision_pair_in collision_pairid_in cid worldid).condim
        = geom_condim (collision_pair_in cid).1 ∧
      (contact_params geom_condim geom_priority geom_solmix geom_solref
        geom_solimp geom_friction geom_margin geom_gap pair_dim pair_solref
        pair_solreffriction pair_solimp pair_margin pair_gap pair_friction
        collision_pair_in collision_pairid_in cid worldid).friction
        = vec5mk
            (max MJ_MINMU (geom_friction.data (worldid % geom_friction.nrow)
              (collision_pair_in cid).1 0))
            (max MJ_MINMU (geom_friction.data (worldid % geom_friction.nrow)
              (collision_pair_in cid).1 0))
            (max MJ_MINMU (geom_friction.data (worldid % geom_friction.nrow)
              (collision_pair_in cid).1 1))
            (max MJ_MINMU (geom_friction.data (worldid % geom_friction.nrow)
              (collision_pair_in cid).1 2))
            (max MJ_MINMU (geom_friction.data (worldid % geom_friction.nrow)
              (collision_pair_in cid).1 2))) ∧
    (geom_priority (collision_pair_in cid).2 >
        geom_priority (collision_pair_in cid).1 →
      (contact_params geom_condim geom_priority geom_solmix geom_solref
        geom_solimp geom_friction geom_margin geom_gap pair_dim pair_solref
        pair_solreffriction pair_solimp pair_margin pair_gap pair_friction
        collision_pair_in collision_pairid_in cid worldid).condim
        = geom_condim (collision_pair_in cid).2 ∧
      (contact_params geom_condim geom_priority geom_solmix geom_solref
        geom_solimp geom_friction geom_margin geom_gap pair_dim pair_solref
        pair_solreffriction pair_solimp pair_margin pair_gap pair_friction
        collision_pair_in collision_pairid_in cid worldid).friction
        = vec5mk
            (max MJ_MINMU (geom_friction.data (worldid % geom_friction.nrow)
              (collision_pair_in cid).2 0))
            (max MJ_MINMU (geom_friction.data (worldid % geom_friction.nrow)
              (collision_pair_in cid).2 0))
            (max MJ_MINMU (geom_friction.data (worldid % geom_friction.nrow)
              (collision_pair_in cid).2 1))
            (max MJ_MINMU (geom_friction.data (worldid % geom_friction.nrow)
              (collision_pair_in cid).2 2))
            (max MJ_MINMU (geom_friction.data (worldid % geom_friction.nrow)
              (collision_pair_in cid).2 2))) ∧
    (geom_priority (collision_pair_in cid).1 =
        geom_priority (collision_pair_in cid).2 →
      (contact_params geom_condim geom_priority geom_solmix geom_solref
        geom_solimp geom_friction geom_margin geom_gap pair_dim pair_solref
        pair_solreffriction pair_solimp pair_margin pair_gap pair_friction
        collision_pair_in collision_pairid_in cid worldid).condim
        = max (geom_condim (collision_pair_in cid).1)
            (geom_condim (collision_pair_in cid).2) ∧
      (contact_params geom_condim geom_priority geom_solmix geom_solref
        geom_solimp geom_friction geom_margin geom_gap pair_dim pair_solref
        pair_solreffriction pair_solimp pair_margin pair_gap pair_friction
        collision_pair_in collision_pairid_in cid worldid).friction
        = vec5mk
            (max MJ_MINMU (v3max
              (geom_friction.data (worldid % geom_friction.nrow)
                (collision_pair_in cid).1)
              (geom_friction.data (worldid % geom_friction.nrow)
                (collision_pair_in cid).2) 0))
            (max MJ_MINMU (v3max
              (geom_friction.data (worldid % geom_friction.nrow)
                (collision_pair_in cid).1)
              (geom_friction.data (worldid % geom_friction.nrow)
                (collision_pair_in cid).2) 0))
            (max MJ_MINMU (v3max
              (geom_friction.data (worldid % geom_friction.nrow)
                (collision_pair_in cid).1)
              (geom_friction.data (worldid % geom_friction.nrow)
                (collision_pair_in cid).2) 1))
            (max MJ_MINMU (v3max
              (geom_friction.data (worldid % geom_friction.nrow)
                (collision_pair_in cid).1)
              (geom_friction.data (worldid % geom_friction.nrow)
                (collision_pair_in cid).2) 2))
            (max MJ_MINMU (v3max
              (geom_friction.data (worldid % geom_friction.nrow)
                (collision_pair_in cid).1)
              (geom_friction.data (worldid % geom_friction.nrow)
                (collision_pair_in cid).2) 2))) := by
  have hnp : ¬((collision_pairid_in cid).1 > -1) := not_lt.mpr hpair
  refine ⟨fun hp => ?_, fun hp => ?_, fun hp => ?_⟩
  · simp only [contact_params, if_neg hnp, if_pos hp, vec5mk_app0,
      vec5mk_app1, vec5mk_app2, vec5mk_app3, vec5mk_app4, and_self]
  · have hnp1 : ¬(geom_priority (collision_pair_in cid).1 >
        geom_priority (collision_pair_in cid).2) := by omega
    simp only [contact_params, if_neg hnp, if_neg hnp1, if_pos hp,
      vec5mk_app0, vec5mk_app1, vec5mk_app2, vec5mk_app3, vec5mk_app4,
      and_self]
  · have hnp1 : ¬(geom_priority (collision_pair_in cid).1 >
        geom_priority (collision_pair_in cid).2) := by omega
    have hnp2 : ¬(geom_priority (collision_pair_in cid).2 >
        geom_priority (collision_pair_in cid).1) := by omega
    simp only [contact_params, if_neg hnp, if_neg hnp1, if_neg hnp2,
      vec5mk_app0, vec5mk_app1, vec5mk_app2, vec5mk_app3, vec5mk_app4,
      and_self]

/-- Witness for C5 (amended) at a concrete strict-priority pair with a
zero-friction winner: the returned friction is the floored expansion. -/
theorem claim_C5_amended_witness :
    (contact_params (fun _ => 3) (fun g => if g = 0 then 1 else 0)
      ⟨1, fun _ _ => 1⟩ ⟨1, fun _ _ => vec2mk 1 1⟩
      ⟨1, fun _ _ => vec5mk 1 1 1 1 1⟩ ⟨1, fun _ _ => vec3mk 0 0 0⟩
      ⟨1, fun _ _ => 0⟩ ⟨1, fun _ _ => 0⟩
      (fun _ => 3) ⟨1, fun _ _ => vec2mk 1 1⟩ ⟨1, fun _ _ => vec2mk 0 0⟩
      ⟨1, fun _ _ => vec5mk 1 1 1 1 1⟩ ⟨1, fun _ _ => 0⟩ ⟨1, fun _ _ => 0⟩
      ⟨1, fun _ _ => vec5mk 1 1 1 1 1⟩
      (fun _ => (0, 1)) (fun _ => (-1, -1)) 0 0).condim = 3 ∧
    (contact_params (fun _ => 3) (fun g => if g = 0 then 1 else 0)
      ⟨1, fun _ _ => 1⟩ ⟨1, fun _ _ => vec2mk 1 1⟩
      ⟨1, fun _ _ => vec5mk 1 1 1 1 1⟩ ⟨1, fun _ _ => vec3mk 0 0 0⟩
      ⟨1, fun _ _ => 0⟩ ⟨1, fun _ _ => 0⟩
      (fun _ => 3) ⟨1, fun _ _ => vec2mk 1 1⟩ ⟨1, fun _ _ => vec2mk 0 0⟩
      ⟨1, fun _ _ => vec5mk 1 1 1 1 1⟩ ⟨1, fun _ _ => 0⟩ ⟨1, fun _ _ => 0⟩
      ⟨1, fun _ _ => vec5mk 1 1 1 1 1⟩
      (fun _ => (0, 1)) (fun _ => (-1, -1)) 0 0).friction
      = vec5mk (max MJ_MINMU 0) (max MJ_MINMU 0) (max MJ_MINMU 0)
          (max MJ_MINMU 0) (max MJ_MINMU 0) :=
  (claim_C5_amended (fun _ => 3) (fun g => if g = 0 then 1 else 0)
    ⟨1, fun _ _ => 1⟩ ⟨1, fun _ _ => vec2mk 1 1⟩
    ⟨1, fun _ _ => vec5mk 1 1 1 1 1⟩ ⟨1, fun _ _ => vec3mk 0 0 0⟩
    ⟨1, fun _ _ => 0⟩ ⟨1, fun _ _ => 0⟩
    (fun _ => 3) ⟨1, fun _ _ => vec2mk 1 1⟩ ⟨1, fun _ _ => vec2mk 0 0⟩
    ⟨1, fun _ _ => vec5mk 1 1 1 1 1⟩ ⟨1, fun _ _ => 0⟩ ⟨1, fun _ _ => 0⟩
    ⟨1, fun _ _ => vec5mk 1 1 1 1 1⟩
    (fun _ => (0, 1)) (fun _ => (-1, -1)) 0 0 (by decide)).1 (by decide)

/-- C6: with no override and equal geometry priorities the mix weight is
`solmix1 / (solmix1 + solmix2)` with exactly three edge cases — both solmix
below `MJ_MINVAL` gives 0.5, only `solmix1` below gives 0 (pure geom 2),
only `solmix2` below gives 1 (pure geom 1) — and the returned `solimp` is
the linear mix of the two impedance curves by that weight. -/
theorem claim_C6 (geom_condim : ℕ → ℤ)
    (geom_priority : ℕ → ℤ) (geom_solmix : Array2 ℚ)
    (geom_solref : Array2 Vec2) (geom_solimp : Array2 Vec5)
    (geom_friction : Array2 Vec3) (geom_margin : Array2 ℚ)
    (geom_gap : Array2 ℚ) (pair_dim : ℕ → ℤ) (pair_solref : Array2 Vec2)
    (pair_solreffriction : Array2 Vec2) (pair_solimp : Array2 Vec5)
    (pair_margin : Array2 ℚ) (pair_gap : Array2 ℚ)
    (pair_friction : Array2 Vec5)
    (collision_pair_in : ℕ → ℕ × ℕ) (collision_pairid_in : ℕ → ℤ × ℤ)
    (cid : ℕ) (worldid : ℕ)
    (hpair : (collision_pairid_in cid).1 ≤ -1)
    (hpri : geom_priority (collision_pair_in cid).1 =
      geom_priority (collision_pair_in cid).2) :
    (MJ_MINVAL ≤ geom_solmix.data (worldid % geom_solmix.nrow)
        (collision_pair_in cid).1 →
      MJ_MINVAL ≤ geom_solmix.data (worldid % geom_solmix.nrow)
        (collision_pair_in cid).2 →
      mix_weight
        (geom_solmix.data (worldid % geom_solmix.nrow)
          (collision_pair_in cid).1)
        (geom_solmix.data (worldid % geom_solmix.nrow)
          (collision_pair_in cid).2)
        = geom_solmix.data (worldid % geom_solmix.nrow)
            (collision_pair_in cid).1 /
          (geom_solmix.data (worldid % geom_solmix.nrow)
            (collision_pair_in cid).1 +
           geom_solmix.data (worldid % geom_solmix.nrow)
            (collision_pair_in cid).2)) ∧
    (geom_solmix.data (worldid % geom_solmix.nrow)
        (collision_pair_in cid).1 < MJ_MINVAL →
      geom_solmix.data (worldid % geom_solmix.nrow)
        (collision_pair_in cid).2 < MJ_MINVAL →
      mix_weight
        (geom_solmix.data (worldid % geom_solmix.nrow)
          (collision_pair_in cid).1)
        (geom_solmix.data (worldid % geom_solmix.nrow)
          (collision_pair_in cid).2) = 0.5) ∧
    (geom_solmix.data (worldid % geom_solmix.nrow)
        (collision_pair_in cid).1 < MJ_MINVAL →
      MJ_MINVAL ≤ geom_solmix.data (worldid % geom_solmix.nrow)
        (collision_pair_in cid).2 →
      mix_weight
        (geom_solmix.data (worldid % geom_solmix.nrow)
          (collision_pair_in cid).1)
        (geom_solmix.data (worldid % geom_solmix.nrow)
          (collision_pair_in cid).2) = 0) ∧
    (MJ_MINVAL ≤ geom_solmix.data (worldid % geom_solmix.nrow)
        (collision_pair_in cid).1 →
      geom_solmix.data (worldid % geom_solmix.nrow)
        (collision_pair_in cid).2 < MJ_MINVAL →
      mix_weight
        (geom_solmix.data (worldid % geom_solmix.nrow)
          (collision_pair_in cid).1)
        (geom_solmix.data (worldid % geom_solmix.nrow)
          (collision_pair_in cid).2) = 1) ∧
    (contact_params geom_condim geom_priority geom_solmix geom_solref
      geom_solimp geom_friction geom_margin geom_gap pair_dim pair_solref
      pair_solreffriction pair_solimp pair_margin pair_gap pair_friction
      collision_pair_in collision_pairid_in cid worldid).solimp
      = v5add
          (v5smul
            (mix_weight
              (geom_solmix.data (worldid % geom_solmix.nrow)
                (collision_pair_in cid).1)
              (geom_solmix.data (worldid % geom_solmix.nrow)
                (collision_pair_in cid).2))
            (geom_solimp.data (worldid % geom_solimp.nrow)
              (collision_pair_in cid).1))
          (v5smul
            (1 -
              mix_weight
                (geom_solmix.data (worldid % geom_solmix.nrow)
                  (collision_pair_in cid).1)
                (geom_solmix.data (worldid % geom_solmix.nrow)
                  (collision_pair_in cid).2))
            (geom_solimp.data (worldid % geom_solimp.nrow)
              (collision_pair_in cid).2)) := by
  have hmw := mix_weight_cases
    (geom_solmix.data (worldid % geom_solmix.nrow) (collision_pair_in cid).1)
    (geom_solmix.data (worldid % geom_solmix.nrow) (collision_pair_in cid).2)
  refine ⟨hmw.1, hmw.2.1, hmw.2.2.1, hmw.2.2.2, ?_⟩
  have hnp : ¬((collision_pairid_in cid).1 > -1) := not_lt.mpr hpair
  have hnp1 : ¬(geom_priority (collision_pair_in cid).1 >
      geom_priority (collision_pair_in cid).2) := by omega
  have hnp2 : ¬(geom_priority (collision_pair_in cid).2 >
      geom_priority (collision_pair_in cid).1) := by omega
  simp only [contact_params, if_neg hnp, if_neg hnp1, if_neg hnp2]

/-- Witness for C6 at a concrete equal-priority pair with `solmix1 = 0`
below the floor and `solmix2 = 1` above it: the mix weight is exactly 0 and
`solimp` is mixed by that weight. -/
theorem claim_C6_witness :
    mix_weight 0 1 = 0 ∧
    (contact_params (fun _ => 3) (fun _ => 0)
      ⟨1, fun _ g => if g = 0 then 0 else 1⟩ ⟨1, fun _ _ => vec2mk 1 1⟩
      ⟨1, fun _ _ => vec5mk 1 1 1 1 1⟩ ⟨1, fun _ _ => vec3mk 1 1 1⟩
      ⟨1, fun _ _ => 0⟩ ⟨1, fun _ _ => 0⟩
      (fun _ => 3) ⟨1, fun _ _ => vec2mk 1 1⟩ ⟨1, fun _ _ => vec2mk 0 0⟩
      ⟨1, fun _ _ => vec5mk 1 1 1 1 1⟩ ⟨1, fun _ _ => 0⟩ ⟨1, fun _ _ => 0⟩
      ⟨1, fun _ _ => vec5mk 1 1 1 1 1⟩
      (fun _ => (0, 1)) (fun _ => (-1, -1)) 0 0).solimp
      = v5add (v5smul (mix_weight 0 1) (vec5mk 1 1 1 1 1))
          (v5smul (1 - mix_weight 0 1) (vec5mk 1 1 1 1 1)) := by
  have h := claim_C6 (fun _ => 3) (fun _ => 0)
    ⟨1, fun _ g => if g = 0 then 0 else 1⟩ ⟨1, fun _ _ => vec2mk 1 1⟩
    ⟨1, fun _ _ => vec5mk 1 1 1 1 1⟩ ⟨1, fun _ _ => vec3mk 1 1 1⟩
    ⟨1, fun _ _ => 0⟩ ⟨1, fun _ _ => 0⟩
    (fun _ => 3) ⟨1, fun _ _ => vec2mk 1 1⟩ ⟨1, fun _ _ => vec2mk 0 0⟩
    ⟨1, fun _ _ => vec5mk 1 1 1 1 1⟩ ⟨1, fun _ _ => 0⟩ ⟨1, fun _ _ => 0⟩
    ⟨1, fun _ _ => vec5mk 1 1 1 1 1⟩
    (fun _ => (0, 1)) (fun _ => (-1, -1)) 0 0 (by decide) rfl
  exact ⟨h.2.2.1 (by norm_num [MJ_MINVAL]) (by norm_num [MJ_MINVAL]), h.2.2.2.2⟩

/-- C7: in the mixing branch of `contact_params`, if both geometries' first
solref component is strictly positive the returned solref is the exact
linear interpolation `mix * solref1 + (1 - mix) * solref2` (with the mix
weight of the relevant priority case); otherwise — including a first
component exactly 0 — it is the componentwise minimum, never mixed. -/
theorem claim_C7 (geom_condim : ℕ → ℤ)
    (geom_priority : ℕ → ℤ) (geom_solmix : Array2 ℚ)
    (geom_solref : Array2 Vec2) (geom_solimp : Array2 Vec5)
    (geom_friction : Array2 Vec3) (geom_margin : Array2 ℚ)
    (geom_gap : Array2 ℚ) (pair_dim : ℕ → ℤ) (pair_solref : Array2 Vec2)
    (pair_solreffriction : Array2 Vec2) (pair_solimp : Array2 Vec5)
    (pair_margin : Array2 ℚ) (pair_gap : Array2 ℚ)
    (pair_friction : Array2 Vec5)
    (collision_pair_in : ℕ → ℕ × ℕ) (collision_pairid_in : ℕ → ℤ × ℤ)
    (cid : ℕ) (worldid : ℕ)
    (hpair : (collision_pairid_in cid).1 ≤ -1) :
    (0 < geom_solref.data (worldid % geom_solref.nrow)
        (collision_pair_in cid).1 0 →
      0 < geom_solref.data (worldid % geom_solref.nrow)
        (collision_pair_in cid).2 0 →
      (contact_params geom_condim geom_priority geom_solmix geom_solref
        geom_solimp geom_friction geom_margin geom_gap pair_dim pair_solref
        pair_solreffriction pair_solimp pair_margin pair_gap pair_friction
        collision_pair_in collision_pairid_in cid worldid).solref
        = v2add
            (v2smul
              (if geom_priority (collision_pair_in cid).1 >
                  geom_priority (collision_pair_in cid).2 then (1 : ℚ)
               else if geom_priority (collision_pair_in cid).2 >
                  geom_priority (collision_pair_in cid).1 then (0 : ℚ)
               else mix_weight
                 (geom_solmix.data (worldid % geom_solmix.nrow)
                   (collision_pair_in cid).1)
                 (geom_solmix.data (worldid % geom_solmix.nrow)
                   (collision_pair_in cid).2))
              (geom_solref.data (worldid % geom_solref.nrow)
                (collision_pair_in cid).1))
            (v2smul
              (1 -
               (if geom_priority (collision_pair_in cid).1 >
                  geom_priority (collision_pair_in cid).2 then (1 : ℚ)
                else if geom_priority (collision_pair_in cid).2 >
                  geom_priority (collision_pair_in cid).1 then (0 : ℚ)
                else mix_weight
                  (geom_solmix.data (worldid % geom_solmix.nrow)
                    (collision_pair_in cid).1)
                  (geom_solmix.data (worldid % geom_solmix.nrow)
                    (collision_pair_in cid).2)))
              (geom_solref.data (worldid % geom_solref.nrow)
                (collision_pair_in cid).2))) ∧
    (geom_solref.data (worldid % geom_solref.nrow)
        (collision_pair_in cid).1 0 ≤ 0 ∨
      geom_solref.data (worldid % geom_solref.nrow)
        (collision_pair_in cid).2 0 ≤ 0 →
      (contact_params geom_condim geom_priority geom_solmix geom_solref
        geom_solimp geom_friction geom_margin geom_gap pair_dim pair_solref
        pair_solreffriction pair_solimp pair_margin pair_gap pair_friction
        collision_pair_in collision_pairid_in cid worldid).solref
        = v2min
            (geom_solref.data (worldid % geom_solref.nrow)
              (collision_pair_in cid).1)
            (geom_solref.data (worldid % geom_solref.nrow)
              (collision_pair_in cid).2)) := by
  have hnp : ¬((collision_pairid_in cid).1 > -1) := not_lt.mpr hpair
  constructor
  · intro h1 h2
    have hpos : (0 : ℚ) < geom_solref.data (worldid % geom_solref.nrow)
        (collision_pair_in cid).1 0 ∧
        (0 : ℚ) < geom_solref.data (worldid % geom_solref.nrow)
          (collision_pair_in cid).2 0 := ⟨h1, h2⟩
    rcases lt_trichotomy (geom_priority (collision_pair_in cid).1)
        (geom_priority (collision_pair_in cid).2) with hp | hp | hp
    · have hnp1 : ¬(geom_priority (collision_pair_in cid).1 >
          geom_priority (collision_pair_in cid).2) := not_lt.mpr hp.le
      simp only [contact_params, if_neg hnp, if_pos hpos, if_neg hnp1,
        if_pos hp]
    · have hnp1 : ¬(geom_priority (collision_pair_in cid).1 >
          geom_priority (collision_pair_in cid).2) := by omega
      have hnp2 : ¬(geom_priority (collision_pair_in cid).2 >
          geom_priority (collision_pair_in cid).1) := by omega
      simp only [contact_params, if_neg hnp, if_pos hpos, if_neg hnp1,
        if_neg hnp2]
    · have hp1 : geom_priority (collision_pair_in cid).1 >
          geom_priority (collision_pair_in cid).2 := hp
      simp only [contact_params, if_neg hnp, if_pos hpos, if_pos hp1]
  · intro hle
    have hneg : ¬((0 : ℚ) < geom_solref.data (worldid % geom_solref.nrow)
        (collision_pair_in cid).1 0 ∧
        (0 : ℚ) < geom_solref.data (worldid % geom_solref.nrow)
          (collision_pair_in cid).2 0) := by
      rcases hle with h | h
      · exact fun hc => absurd hc.1 (not_lt.mpr h)
      · exact fun hc => absurd hc.2 (not_lt.mpr h)
    simp only [contact_params, if_neg hnp, if_neg hneg]

/-- Witness for C7: a concrete equal-priority pair whose first solref
components are both 1 (positive) takes the interpolation branch. -/
theorem claim_C7_witness :
    (contact_params (fun _ => 3) (fun _ => 0)
      ⟨1, fun _ _ => 1⟩ ⟨1, fun _ _ => vec2mk 1 1⟩
      ⟨1, fun _ _ => vec5mk 1 1 1 1 1⟩ ⟨1, fun _ _ => vec3mk 1 1 1⟩
      ⟨1, fun _ _ => 0⟩ ⟨1, fun _ _ => 0⟩
      (fun _ => 3) ⟨1, fun _ _ => vec2mk 1 1⟩ ⟨1, fun _ _ => vec2mk 0 0⟩
      ⟨1, fun _ _ => vec5mk 1 1 1 1 1⟩ ⟨1, fun _ _ => 0⟩ ⟨1, fun _ _ => 0⟩
      ⟨1, fun _ _ => vec5mk 1 1 1 1 1⟩
      (fun _ => (0, 1)) (fun _ => (-1, -1)) 0 0).solref
      = v2add (v2smul (mix_weight 1 1) (vec2mk 1 1))
          (v2smul (1 - mix_weight 1 1) (vec2mk 1 1)) :=
  (claim_C7 (fun _ => 3) (fun _ => 0)
    ⟨1, fun _ _ => 1⟩ ⟨1, fun _ _ => vec2mk 1 1⟩
    ⟨1, fun _ _ => vec5mk 1 1 1 1 1⟩ ⟨1, fun _ _ => vec3mk 1 1 1⟩
    ⟨1, fun _ _ => 0⟩ ⟨1, fun _ _ => 0⟩
    (fun _ => 3) ⟨1, fun _ _ => vec2mk 1 1⟩ ⟨1, fun _ _ => vec2mk 0 0⟩
    ⟨1, fun _ _ => vec5mk 1 1 1 1 1⟩ ⟨1, fun _ _ => 0⟩ ⟨1, fun _ _ => 0⟩
    ⟨1, fun _ _ => vec5mk 1 1 1 1 1⟩
    (fun _ => (0, 1)) (fun _ => (-1, -1)) 0 0 (by decide)).1
    (by decide) (by decide)

/-- C9: in `geom_collision_pair`, for a geometry whose declared type is
mesh, a negative mesh data id sets every mesh address/count field of its
view to the sentinel -1, and a nonnegative data id fills those fields from
the mesh tables at that id — stated for both geometries of the pair. -/
theorem claim_C9 (geom_type : ℕ → ℤ) (geom_dataid : ℕ → ℤ)
    (geom_size : Array2 Vec3)
    (mesh_vertadr : ℕ → ℤ) (mesh_vertnum : ℕ → ℤ) (mesh_graphadr : ℕ → ℤ)
    (mesh_vert : ℕ → Vec3) (mesh_graph : ℕ → ℤ)
    (mesh_polynum : ℕ → ℤ) (mesh_polyadr : ℕ → ℤ)
    (mesh_polynormal : ℕ → Vec3)
    (mesh_polyvertadr : ℕ → ℤ) (mesh_polyvertnum : ℕ → ℤ)
    (mesh_polyvert : ℕ → ℤ) (mesh_polymapadr : ℕ → ℤ)
    (mesh_polymapnum : ℕ → ℤ) (mesh_polymap : ℕ → ℤ)
    (geom_xpos_in : Array2 Vec3) (geom_xmat_in : Array2 Mat33)
    (geoms : ℕ × ℕ) (worldid : ℕ) :
    (geom_type geoms.1 = GeomType.MESH →
      (geom_dataid geoms.1 < 0 →
        (geom_collision_pair geom_type geom_dataid geom_size mesh_vertadr
        mesh_vertnum mesh_graphadr mesh_vert mesh_graph mesh_polynum
        mesh_polyadr mesh_polynormal mesh_polyvertadr mesh_polyvertnum
        mesh_polyvert mesh_polymapadr mesh_polymapnum mesh_polymap
        geom_xpos_in geom_xmat_in geoms worldid).1.vertadr = -1 ∧
      (geom_collision_pair geom_type geom_dataid geom_size mesh_vertadr
        mesh_vertnum mesh_graphadr mesh_vert mesh_graph mesh_polynum
        mesh_polyadr mesh_polynormal mesh_polyvertadr mesh_polyvertnum
        mesh_polyvert mesh_polymapadr mesh_polymapnum mesh_polymap
        geom_xpos_in geom_xmat_in geoms worldid).1.vertnum = -1 ∧
      (geom_collision_pair geom_type geom_dataid geom_size mesh_vertadr
        mesh_vertnum mesh_graphadr mesh_vert mesh_graph mesh_polynum
        mesh_polyadr mesh_polynormal mesh_polyvertadr mesh_polyvertnum
        mesh_polyvert mesh_polymapadr mesh_polymapnum mesh_polymap
        geom_xpos_in geom_xmat_in geoms worldid).1.graphadr = -1 ∧
      (geom_collision_pair geom_type geom_dataid geom_size mesh_vertadr
        mesh_vertnum mesh_graphadr mesh_vert mesh_graph mesh_polynum
        mesh_polyadr mesh_polynormal mesh_polyvertadr mesh_polyvertnum
        mesh_polyvert mesh_polymapadr mesh_polymapnum mesh_polymap
        geom_xpos_in geom_xmat_in geoms worldid).1.mesh_polynum = -1 ∧
      (geom_collision_pair geom_type geom_dataid geom_size mesh_vertadr
        mesh_vertnum mesh_graphadr mesh_vert mesh_graph mesh_polynum
        mesh_polyadr mesh_polynormal mesh_polyvertadr mesh_polyvertnum
        mesh_polyvert mesh_polymapadr mesh_polymapnum mesh_polymap
        geom_xpos_in geom_xmat_in geoms worldid).1.mesh_polyadr = -1) ∧
      (0 ≤ geom_dataid geoms.1 →
        (geom_collision_pair geom_type geom_dataid geom_size mesh_vertadr
        mesh_vertnum mesh_graphadr mesh_vert mesh_graph mesh_polynum
        mesh_polyadr mesh_polynormal mesh_polyvertadr mesh_polyvertnum
        mesh_polyvert mesh_polymapadr mesh_polymapnum mesh_polymap
        geom_xpos_in geom_xmat_in geoms worldid).1.vertadr
        = mesh_vertadr (geom_dataid geoms.1).toNat ∧
      (geom_collision_pair geom_type geom_dataid geom_size mesh_vertadr
        mesh_vertnum mesh_graphadr mesh_vert mesh_graph mesh_polynum
        mesh_polyadr mesh_polynormal mesh_polyvertadr mesh_polyvertnum
        mesh_polyvert mesh_polymapadr mesh_polymapnum mesh_polymap
        geom_xpos_in geom_xmat_in geoms worldid).1.vertnum
        = mesh_vertnum (geom_dataid geoms.1).toNat ∧
      (geom_collision_pair geom_type geom_dataid geom_size mesh_vertadr
        mesh_vertnum mesh_graphadr mesh_vert mesh_graph mesh_polynum
        mesh_polyadr mesh_polynormal mesh_polyvertadr mesh_polyvertnum
        mesh_polyvert mesh_polymapadr mesh_polymapnum mesh_polymap
        geom_xpos_in geom_xmat_in geoms worldid).1.graphadr
        = mesh_graphadr (geom_dataid geoms.1).toNat ∧
      (geom_collision_pair geom_type geom_dataid geom_size mesh_vertadr
        mesh_vertnum mesh_graphadr mesh_vert mesh_graph mesh_polynum
        mesh_polyadr mesh_polynormal mesh_polyvertadr mesh_polyvertnum
        mesh_polyvert mesh_polymapadr mesh_polymapnum mesh_polymap
        geom_xpos_in geom_xmat_in geoms worldid).1.mesh_polynum
        = mesh_polynum (geom_dataid geoms.1).toNat ∧
      (geom_collision_pair geom_type geom_dataid geom_size mesh_vertadr
        mesh_vertnum mesh_graphadr mesh_vert mesh_graph mesh_polynum
        mesh_polyadr mesh_polynormal mesh_polyvertadr mesh_polyvertnum
        mesh_polyvert mesh_polymapadr mesh_polymapnum mesh_polymap
        geom_xpos_in geom_xmat_in geoms worldid).1.mesh_polyadr
        = mesh_polyadr (geom_dataid geoms.1).toNat)) ∧
    (geom_type geoms.2 = GeomType.MESH →
      (geom_dataid geoms.2 < 0 →
        (geom_collision_pair geom_type geom_dataid geom_size mesh_vertadr
        mesh_vertnum mesh_graphadr mesh_vert mesh_graph mesh_polynum
        mesh_polyadr mesh_polynormal mesh_polyvertadr mesh_polyvertnum
        mesh_polyvert mesh_polymapadr mesh_polymapnum mesh_polymap
        geom_xpos_in geom_xmat_in geoms worldid).2.vertadr = -1 ∧
      (geom_collision_pair geom_type geom_dataid geom_size mesh_vertadr
        mesh_vertnum mesh_graphadr mesh_vert mesh_graph mesh_polynum
        mesh_polyadr mesh_polynormal mesh_polyvertadr mesh_polyvertnum
        mesh_polyvert mesh_polymapadr mesh_polymapnum mesh_polymap
        geom_xpos_in geom_xmat_in geoms worldid).2.vertnum = -1 ∧
      (geom_collision_pair geom_type geom_dataid geom_size mesh_vertadr
        mesh_vertnum mesh_graphadr mesh_vert mesh_graph mesh_polynum
        mesh_polyadr mesh_polynormal mesh_polyvertadr mesh_polyvertnum
        mesh_polyvert mesh_polymapadr mesh_polymapnum mesh_polymap
        geom_xpos_in geom_xmat_in geoms worldid).2.graphadr = -1 ∧
      (geom_collision_pair geom_type geom_dataid geom_size mesh_vertadr
        mesh_vertnum mesh_graphadr mesh_vert mesh_graph mesh_polynum
        mesh_polyadr mesh_polynormal mesh_polyvertadr mesh_polyvertnum
        mesh_polyvert mesh_polymapadr mesh_polymapnum mesh_polymap
        geom_xpos_in geom_xmat_in geoms worldid).2.mesh_polynum = -1 ∧
      (geom_collision_pair geom_type geom_dataid geom_size mesh_vertadr
        mesh_vertnum mesh_graphadr mesh_vert mesh_graph mesh_polynum
        mesh_polyadr mesh_polynormal mesh_polyvertadr mesh_polyvertnum
        mesh_polyvert mesh_polymapadr mesh_polymapnum mesh_polymap
        geom_xpos_in geom_xmat_in geoms worldid).2.mesh_polyadr = -1) ∧
      (0 ≤ geom_dataid geoms.2 →
        (geom_collision_pair geom_type geom_dataid geom_size mesh_vertadr
        mesh_vertnum mesh_graphadr mesh_vert mesh_graph mesh_polynum
        mesh_polyadr mesh_polynormal mesh_polyvertadr mesh_polyvertnum
        mesh_polyvert mesh_polymapadr mesh_polymapnum mesh_polymap
        geom_xpos_in geom_xmat_in geoms worldid).2.vertadr
        = mesh_vertadr (geom_dataid geoms.2).toNat ∧
      (geom_collision_pair geom_type geom_dataid geom_size mesh_vertadr
        mesh_vertnum mesh_graphadr mesh_vert mesh_graph mesh_polynum
        mesh_polyadr mesh_polynormal mesh_polyvertadr mesh_polyvertnum
        mesh_polyvert mesh_polymapadr mesh_polymapnum mesh_polymap
        geom_xpos_in geom_xmat_in geoms worldid).2.vertnum
        = mesh_vertnum (geom_dataid geoms.2).toNat ∧
      (geom_collision_pair geom_type geom_dataid geom_size mesh_vertadr
        mesh_vertnum mesh_graphadr mesh_vert mesh_graph mesh_polynum
        mesh_polyadr mesh_polynormal mesh_polyvertadr mesh_polyvertnum
        mesh_polyvert mesh_polymapadr mesh_polymapnum mesh_polymap
        geom_xpos_in geom_xmat_in geoms worldid).2.graphadr
        = mesh_graphadr (geom_dataid geoms.2).toNat ∧
      (geom_collision_pair geom_type geom_dataid geom_size mesh_vertadr
        mesh_vertnum mesh_graphadr mesh_vert mesh_graph mesh_polynum
        mesh_polyadr mesh_polynormal mesh_polyvertadr mesh_polyvertnum
        mesh_polyvert mesh_polymapadr mesh_polymapnum mesh_polymap
        geom_xpos_in geom_xmat_in geoms worldid).2.mesh_polynum
        = mesh_polynum (geom_dataid geoms.2).toNat ∧
      (geom_collision_pair geom_type geom_dataid geom_size mesh_vertadr
        mesh_vertnum mesh_graphadr mesh_vert mesh_graph mesh_polynum
        mesh_polyadr mesh_polynormal mesh_polyvertadr mesh_polyvertnum
        mesh_polyvert mesh_polymapadr mesh_polymapnum mesh_polymap
        geom_xpos_in geom_xmat_in geoms worldid).2.mesh_polyadr
        = mesh_polyadr (geom_dataid geoms.2).toNat)) := by
  constructor
  · intro hmesh
    constructor
    · intro hneg
      have hd : ¬(0 ≤ geom_dataid geoms.1) := not_le.mpr hneg
      simp only [geom_collision_pair, if_pos hmesh, if_neg hd, and_self]
    · intro hposd
      simp only [geom_collision_pair, if_pos hmesh, if_pos hposd, and_self]
  · intro hmesh
    constructor
    · intro hneg
      have hd : ¬(0 ≤ geom_dataid geoms.2) := not_le.mpr hneg
      simp only [geom_collision_pair, if_pos hmesh, if_neg hd, and_self]
    · intro hposd
      simp only [geom_collision_pair, if_pos hmesh, if_pos hposd, and_self]

/-- Witness for C9: a concrete two-geometry model where geometry 0 is a
mesh with data id -1 (sentinel fields) and geometry 1 is a mesh with data
id 0 (fields read from the tables). -/
theorem claim_C9_witness :
    (geom_collision_pair (fun _ => GeomType.MESH)
      (fun g => if g = 0 then -1 else 0)
      ⟨1, fun _ _ => vec3mk 1 1 1⟩ (fun _ => 11) (fun _ => 12) (fun _ => 13)
      (fun _ _ => 0) (fun _ => 0) (fun _ => 14) (fun _ => 15) (fun _ _ => 0)
      (fun _ => 0) (fun _ => 0) (fun _ => 0) (fun _ => 0) (fun _ => 0)
      (fun _ => 0) ⟨1, fun _ _ => vec3mk 0 0 0⟩ ⟨1, fun _ _ _ => 0⟩
      (0, 1) 0).1.vertadr = -1 ∧
    (geom_collision_pair (fun _ => GeomType.MESH)
      (fun g => if g = 0 then -1 else 0)
      ⟨1, fun _ _ => vec3mk 1 1 1⟩ (fun _ => 11) (fun _ => 12) (fun _ => 13)
      (fun _ _ => 0) (fun _ => 0) (fun _ => 14) (fun _ => 15) (fun _ _ => 0)
      (fun _ => 0) (fun _ => 0) (fun _ => 0) (fun _ => 0) (fun _ => 0)
      (fun _ => 0) ⟨1, fun _ _ => vec3mk 0 0 0⟩ ⟨1, fun _ _ _ => 0⟩
      (0, 1) 0).2.vertadr = 11 := by
  have h := claim_C9 (fun _ => GeomType.MESH)
    (fun g => if g = 0 then -1 else 0)
    ⟨1, fun _ _ => vec3mk 1 1 1⟩ (fun _ => 11) (fun _ => 12) (fun _ => 13)
    (fun _ _ => 0) (fun _ => 0) (fun _ => 14) (fun _ => 15) (fun _ _ => 0)
    (fun _ => 0) (fun _ => 0) (fun _ => 0) (fun _ => 0) (fun _ => 0)
    (fun _ => 0) ⟨1, fun _ _ => vec3mk 0 0 0⟩ ⟨1, fun _ _ _ => 0⟩
    (0, 1) 0
  exact ⟨((h.1 rfl).1 (by decide)).1, ((h.2 rfl).2 (by decide)).1⟩

/-- C10: in `geom_collision_pair`, a geometry whose declared type is not
mesh keeps the struct's zero defaults in every mesh address/count field
(0, not the -1 absence sentinel — so the sentinel test cannot distinguish
it from an assigned mesh at address 0, since 0 is not -1); and for every
geometry, regardless of type, the returned view has `margin` 0 and `index`
-1. -/
theorem claim_C10 (geom_type : ℕ → ℤ) (geom_dataid : ℕ → ℤ)
    (geom_size : Array2 Vec3)
    (mesh_vertadr : ℕ → ℤ) (mesh_vertnum : ℕ → ℤ) (mesh_graphadr : ℕ → ℤ)
    (mesh_vert : ℕ → Vec3) (mesh_graph : ℕ → ℤ)
    (mesh_polynum : ℕ → ℤ) (mesh_polyadr : ℕ → ℤ)
    (mesh_polynormal : ℕ → Vec3)
    (mesh_polyvertadr : ℕ → ℤ) (mesh_polyvertnum : ℕ → ℤ)
    (mesh_polyvert : ℕ → ℤ) (mesh_polymapadr : ℕ → ℤ)
    (mesh_polymapnum : ℕ → ℤ) (mesh_polymap : ℕ → ℤ)
    (geom_xpos_in : Array2 Vec3) (geom_xmat_in : Array2 Mat33)
    (geoms : ℕ × ℕ) (worldid : ℕ) :
    (geom_type geoms.1 ≠ GeomType.MESH →
      (geom_collision_pair geom_type geom_dataid geom_size mesh_vertadr
        mesh_vertnum mesh_graphadr mesh_vert mesh_graph mesh_polynum
        mesh_polyadr mesh_polynormal mesh_polyvertadr mesh_polyvertnum
        mesh_polyvert mesh_polymapadr mesh_polymapnum mesh_polymap
        geom_xpos_in geom_xmat_in geoms worldid).1.vertadr = 0 ∧
      (geom_collision_pair geom_type geom_dataid geom_size mesh_vertadr
        mesh_vertnum mesh_graphadr mesh_vert mesh_graph mesh_polynum
        mesh_polyadr mesh_polynormal mesh_polyvertadr mesh_polyvertnum
        mesh_polyvert mesh_polymapadr mesh_polymapnum mesh_polymap
        geom_xpos_in geom_xmat_in geoms worldid).1.vertnum = 0 ∧
      (geom_collision_pair geom_type geom_dataid geom_size mesh_vertadr
        mesh_vertnum mesh_graphadr mesh_vert mesh_graph mesh_polynum
        mesh_polyadr mesh_polynormal mesh_polyvertadr mesh_polyvertnum
        mesh_polyvert mesh_polymapadr mesh_polymapnum mesh_polymap
        geom_xpos_in geom_xmat_in geoms worldid).1.graphadr = 0 ∧
      (geom_collision_pair geom_type geom_dataid geom_size mesh_vertadr
        mesh_vertnum mesh_graphadr mesh_vert mesh_graph mesh_polynum
        mesh_polyadr mesh_polynormal mesh_polyvertadr mesh_polyvertnum
        mesh_polyvert mesh_polymapadr mesh_polymapnum mesh_polymap
        geom_xpos_in geom_xmat_in geoms worldid).1.mesh_polynum = 0 ∧
      (geom_collision_pair geom_type geom_dataid geom_size mesh_vertadr
        mesh_vertnum mesh_graphadr mesh_vert mesh_graph mesh_polynum
        mesh_polyadr mesh_polynormal mesh_polyvertadr mesh_polyvertnum
        mesh_polyvert mesh_polymapadr mesh_polymapnum mesh_polymap
        geom_xpos_in geom_xmat_in geoms worldid).1.mesh_polyadr = 0) ∧
    (geom_type geoms.2 ≠ GeomType.MESH →
      (geom_collision_pair geom_type geom_dataid geom_size mesh_vertadr
        mesh_vertnum mesh_graphadr mesh_vert mesh_graph mesh_polynum
        mesh_polyadr mesh_polynormal mesh_polyvertadr mesh_polyvertnum
        mesh_polyvert mesh_polymapadr mesh_polymapnum mesh_polymap
        geom_xpos_in geom_xmat_in geoms worldid).2.vertadr = 0 ∧
      (geom_collision_pair geom_type geom_dataid geom_size mesh_vertadr
        mesh_vertnum mesh_graphadr mesh_vert mesh_graph mesh_polynum
        mesh_polyadr mesh_polynormal mesh_polyvertadr mesh_polyvertnum
        mesh_polyvert mesh_polymapadr mesh_polymapnum mesh_polymap
        geom_xpos_in geom_xmat_in geoms worldid).2.vertnum = 0 ∧
      (geom_collision_pair geom_type geom_dataid geom_size mesh_vertadr
        mesh_vertnum mesh_graphadr mesh_vert mesh_graph mesh_polynum
        mesh_polyadr mesh_polynormal mesh_polyvertadr mesh_polyvertnum
        mesh_polyvert mesh_polymapadr mesh_polymapnum mesh_polymap
        geom_xpos_in geom_xmat_in geoms worldid).2.graphadr = 0 ∧
      (geom_collision_pair geom_type geom_dataid geom_size mesh_vertadr
        mesh_vertnum mesh_graphadr mesh_vert mesh_graph mesh_polynum
        mesh_polyadr mesh_polynormal mesh_polyvertadr mesh_polyvertnum
        mesh_polyvert mesh_polymapadr mesh_polymapnum mesh_polymap
        geom_xpos_in geom_xmat_in geoms worldid).2.mesh_polynum = 0 ∧
      (geom_collision_pair geom_type geom_dataid geom_size mesh_vertadr
        mesh_vertnum mesh_graphadr mesh_vert mesh_graph mesh_polynum
        mesh_polyadr mesh_polynormal mesh_polyvertadr mesh_polyvertnum
        mesh_polyvert mesh_polymapadr mesh_polymapnum mesh_polymap
        geom_xpos_in geom_xmat_in geoms worldid).2.mesh_polyadr = 0) ∧
    (geom_collision_pair geom_type geom_dataid geom_size mesh_vertadr
        mesh_vertnum mesh_graphadr mesh_vert mesh_graph mesh_polynum
        mesh_polyadr mesh_polynormal mesh_polyvertadr mesh_polyvertnum
        mesh_polyvert mesh_polymapadr mesh_polymapnum mesh_polymap
        geom_xpos_in geom_xmat_in geoms worldid).1.margin = 0 ∧
    (geom_collision_pair geom_type geom_dataid geom_size mesh_vertadr
        mesh_vertnum mesh_graphadr mesh_vert mesh_graph mesh_polynum
        mesh_polyadr mesh_polynormal mesh_polyvertadr mesh_polyvertnum
        mesh_polyvert mesh_polymapadr mesh_polymapnum mesh_polymap
        geom_xpos_in geom_xmat_in geoms worldid).1.index = -1 ∧
    (geom_collision_pair geom_type geom_dataid geom_size mesh_vertadr
        mesh_vertnum mesh_graphadr mesh_vert mesh_graph mesh_polynum
        mesh_polyadr mesh_polynormal mesh_polyvertadr mesh_polyvertnum
        mesh_polyvert mesh_polymapadr mesh_polymapnum mesh_polymap
        geom_xpos_in geom_xmat_in geoms worldid).2.margin = 0 ∧
    (geom_collision_pair geom_type geom_dataid geom_size mesh_vertadr
        mesh_vertnum mesh_graphadr mesh_vert mesh_graph mesh_polynum
        mesh_polyadr mesh_polynormal mesh_polyvertadr mesh_polyvertnum
        mesh_polyvert mesh_polymapadr mesh_polymapnum mesh_polymap
        geom_xpos_in geom_xmat_in geoms worldid).2.index = -1 ∧
    (0 : ℤ) ≠ -1 := by
  refine ⟨fun hnm => ?_, fun hnm => ?_, ?_, ?_, ?_, ?_, by decide⟩
  · simp only [geom_collision_pair, if_neg hnm, and_self]
  · simp only [geom_collision_pair, if_neg hnm, and_self]
  · simp only [geom_collision_pair]
  · simp only [geom_collision_pair]
  · simp only [geom_collision_pair]
  · simp only [geom_collision_pair]

/-- Witness for C10: a concrete non-mesh pair — mesh fields stay 0, margin
is 0 and index is -1. -/
theorem claim_C10_witness :
    (geom_collision_pair (fun _ => 2) (fun _ => 0)
      ⟨1, fun _ _ => vec3mk 1 1 1⟩ (fun _ => 11) (fun _ => 12) (fun _ => 13)
      (fun _ _ => 0) (fun _ => 0) (fun _ => 14) (fun _ => 15) (fun _ _ => 0)
      (fun _ => 0) (fun _ => 0) (fun _ => 0) (fun _ => 0) (fun _ => 0)
      (fun _ => 0) ⟨1, fun _ _ => vec3mk 0 0 0⟩ ⟨1, fun _ _ _ => 0⟩
      (0, 1) 0).1.vertadr = 0 ∧
    (geom_collision_pair (fun _ => 2) (fun _ => 0)
      ⟨1, fun _ _ => vec3mk 1 1 1⟩ (fun _ => 11) (fun _ => 12) (fun _ => 13)
      (fun _ _ => 0) (fun _ => 0) (fun _ => 14) (fun _ => 15) (fun _ _ => 0)
      (fun _ => 0) (fun _ => 0) (fun _ => 0) (fun _ => 0) (fun _ => 0)
      (fun _ => 0) ⟨1, fun _ _ => vec3mk 0 0 0⟩ ⟨1, fun _ _ _ => 0⟩
      (0, 1) 0).1.margin = 0 ∧
    (geom_collision_pair (fun _ => 2) (fun _ => 0)
      ⟨1, fun _ _ => vec3mk 1 1 1⟩ (fun _ => 11) (fun _ => 12) (fun _ => 13)
      (fun _ _ => 0) (fun _ => 0) (fun _ => 14) (fun _ => 15) (fun _ _ => 0)
      (fun _ => 0) (fun _ => 0) (fun _ => 0) (fun _ => 0) (fun _ => 0)
      (fun _ => 0) ⟨1, fun _ _ => vec3mk 0 0 0⟩ ⟨1, fun _ _ _ => 0⟩
      (0, 1) 0).1.index = -1 := by
  have h := claim_C10 (fun _ => 2) (fun _ => 0)
    ⟨1, fun _ _ => vec3mk 1 1 1⟩ (fun _ => 11) (fun _ => 12) (fun _ => 13)
    (fun _ _ => 0) (fun _ => 0) (fun _ => 14) (fun _ => 15) (fun _ _ => 0)
    (fun _ => 0) (fun _ => 0) (fun _ => 0) (fun _ => 0) (fun _ => 0)
    (fun _ => 0) ⟨1, fun _ _ => vec3mk 0 0 0⟩ ⟨1, fun _ _ _ => 0⟩
    (0, 1) 0
  exact ⟨(h.1 (by decide)).1, h.2.2.1, h.2.2.2.1⟩

/-- Counterexample to C1 as stated: the claim asserts every per-geometry,
per-world array read by the collision core — in particular the
pair-override table read by `contact_params` — uses row index
`worldid % rowCount`.  At a concrete model whose `pair_margin` table has a
single row whose entries differ from the function's values beyond that row,
with `worldid = 1` and override id 0, the code reads row `worldid = 1`
directly, not row `1 % 1 = 0`, so the returned margin differs from the
modulo-indexed value: broadcast does not apply to the pair tables. -/
theorem claim_C1_counterexample :
    (contact_params (fun _ => 3) (fun _ => 0)
      ⟨1, fun _ _ => 1⟩ ⟨1, fun _ _ => vec2mk 1 1⟩
      ⟨1, fun _ _ => vec5mk 1 1 1 1 1⟩ ⟨1, fun _ _ => vec3mk 1 1 1⟩
      ⟨1, fun _ _ => 0⟩ ⟨1, fun _ _ => 0⟩
      (fun _ => 3) ⟨1, fun _ _ => vec2mk 1 1⟩ ⟨1, fun _ _ => vec2mk 0 0⟩
      ⟨1, fun _ _ => vec5mk 1 1 1 1 1⟩
      ⟨1, fun i _ => if i = 0 then 2 else 3⟩ ⟨1, fun _ _ => 0⟩
      ⟨1, fun _ _ => vec5mk 1 1 1 1 1⟩
      (fun _ => (0, 1)) (fun _ => (0, -1)) 0 1).margin
      ≠ (⟨1, fun i _ => if i = 0 then 2 else 3⟩ : Array2 ℚ).data
          (1 % (⟨1, fun i _ => if i = 0 then (2 : ℚ) else 3⟩ :
            Array2 ℚ).nrow) 0 := by decide

/-- C1 amended: the `worldid mod rowCount` convention holds for `geom_size`
in `geom_collision_pair` and for the geometry material arrays in
`contact_params` (margin and gap shown; solmix, friction, solref, solimp
rows appear with the same modulo in the statements of C5-C7), so a
single-row array broadcasts there; but the pose arrays
(`geom_xpos`, `geom_xmat`) and the pair-override tables are indexed at row
`worldid` directly, with no modulo. -/
theorem claim_C1_amended :
    (∀ (geom_type : ℕ → ℤ) (geom_dataid : ℕ → ℤ)
      (geom_size : Array2 Vec3)
      (mesh_vertadr : ℕ → ℤ) (mesh_vertnum : ℕ → ℤ) (mesh_graphadr : ℕ → ℤ)
      (mesh_vert : ℕ → Vec3) (mesh_graph : ℕ → ℤ)
      (mesh_polynum : ℕ → ℤ) (mesh_polyadr : ℕ → ℤ)
      (mesh_polynormal : ℕ → Vec3)
      (mesh_polyvertadr : ℕ → ℤ) (mesh_polyvertnum : ℕ → ℤ)
      (mesh_polyvert : ℕ → ℤ) (mesh_polymapadr : ℕ → ℤ)
      (mesh_polymapnum : ℕ → ℤ) (mesh_polymap : ℕ → ℤ)
      (geom_xpos_in : Array2 Vec3) (geom_xmat_in : Array2 Mat33)
      (geoms : ℕ × ℕ) (worldid : ℕ),
      (geom_collision_pair geom_type geom_dataid geom_size mesh_vertadr
        mesh_vertnum mesh_graphadr mesh_vert mesh_graph mesh_polynum
        mesh_polyadr mesh_polynormal mesh_polyvertadr mesh_polyvertnum
        mesh_polyvert mesh_polymapadr mesh_polymapnum mesh_polymap
        geom_xpos_in geom_xmat_in geoms worldid).1.size = geom_size.data (worldid % geom_size.nrow) geoms.1 ∧
      (geom_collision_pair geom_type geom_dataid geom_size mesh_vertadr
        mesh_vertnum mesh_graphadr mesh_vert mesh_graph mesh_polynum
        mesh_polyadr mesh_polynormal mesh_polyvertadr mesh_polyvertnum
        mesh_polyvert mesh_polymapadr mesh_polymapnum mesh_polymap
        geom_xpos_in geom_xmat_in geoms worldid).2.size = geom_size.data (worldid % geom_size.nrow) geoms.2 ∧
      (geom_collision_pair geom_type geom_dataid geom_size mesh_vertadr
        mesh_vertnum mesh_graphadr mesh_vert mesh_graph mesh_polynum
        mesh_polyadr mesh_polynormal mesh_polyvertadr mesh_polyvertnum
        mesh_polyvert mesh_polymapadr mesh_polymapnum mesh_polymap
        geom_xpos_in geom_xmat_in geoms worldid).1.pos = geom_xpos_in.data worldid geoms.1 ∧
      (geom_collision_pair geom_type geom_dataid geom_size mesh_vertadr
        mesh_vertnum mesh_graphadr mesh_vert mesh_graph mesh_polynum
        mesh_polyadr mesh_polynormal mesh_polyvertadr mesh_polyvertnum
        mesh_polyvert mesh_polymapadr mesh_polymapnum mesh_polymap
        geom_xpos_in geom_xmat_in geoms worldid).2.pos = geom_xpos_in.data worldid geoms.2 ∧
      (geom_collision_pair geom_type geom_dataid geom_size mesh_vertadr
        mesh_vertnum mesh_graphadr mesh_vert mesh_graph mesh_polynum
        mesh_polyadr mesh_polynormal mesh_polyvertadr mesh_polyvertnum
        mesh_polyvert mesh_polymapadr mesh_polymapnum mesh_polymap
        geom_xpos_in geom_xmat_in geoms worldid).1.rot = geom_xmat_in.data worldid geoms.1 ∧
      (geom_size.nrow = 1 →
        (geom_collision_pair geom_type geom_dataid geom_size mesh_vertadr
        mesh_vertnum mesh_graphadr mesh_vert mesh_graph mesh_polynum
        mesh_polyadr mesh_polynormal mesh_polyvertadr mesh_polyvertnum
        mesh_polyvert mesh_polymapadr mesh_polymapnum mesh_polymap
        geom_xpos_in geom_xmat_in geoms worldid).1.size = geom_size.data 0 geoms.1)) ∧
    (∀ (geom_condim : ℕ → ℤ)
      (geom_priority : ℕ → ℤ) (geom_solmix : Array2 ℚ)
      (geom_solref : Array2 Vec2) (geom_solimp : Array2 Vec5)
      (geom_friction : Array2 Vec3) (geom_margin : Array2 ℚ)
      (geom_gap : Array2 ℚ) (pair_dim : ℕ → ℤ) (pair_solref : Array2 Vec2)
      (pair_solreffriction : Array2 Vec2) (pair_solimp : Array2 Vec5)
      (pair_margin : Array2 ℚ) (pair_gap : Array2 ℚ)
      (pair_friction : Array2 Vec5)
      (collision_pair_in : ℕ → ℕ × ℕ) (collision_pairid_in : ℕ → ℤ × ℤ)
      (cid : ℕ) (worldid : ℕ),
      ((collision_pairid_in cid).1 > -1 →
        (contact_params geom_condim geom_priority geom_solmix geom_solref
        geom_solimp geom_friction geom_margin geom_gap pair_dim pair_solref
        pair_solreffriction pair_solimp pair_margin pair_gap pair_friction
        collision_pair_in collision_pairid_in cid worldid).margin = pair_margin.data worldid ((collision_pairid_in cid).1).toNat ∧
        (contact_params geom_condim geom_priority geom_solmix geom_solref
        geom_solimp geom_friction geom_margin geom_gap pair_dim pair_solref
        pair_solreffriction pair_solimp pair_margin pair_gap pair_friction
        collision_pair_in collision_pairid_in cid worldid).gap = pair_gap.data worldid ((collision_pairid_in cid).1).toNat ∧
        (contact_params geom_condim geom_priority geom_solmix geom_solref
        geom_solimp geom_friction geom_margin geom_gap pair_dim pair_solref
        pair_solreffriction pair_solimp pair_margin pair_gap pair_friction
        collision_pair_in collision_pairid_in cid worldid).condim = pair_dim ((collision_pairid_in cid).1).toNat ∧
        (contact_params geom_condim geom_priority geom_solmix geom_solref
        geom_solimp geom_friction geom_margin geom_gap pair_dim pair_solref
        pair_solreffriction pair_solimp pair_margin pair_gap pair_friction
        collision_pair_in collision_pairid_in cid worldid).solref = pair_solref.data worldid ((collision_pairid_in cid).1).toNat ∧
        (contact_params geom_condim geom_priority geom_solmix geom_solref
        geom_solimp geom_friction geom_margin geom_gap pair_dim pair_solref
        pair_solreffriction pair_solimp pair_margin pair_gap pair_friction
        collision_pair_in collision_pairid_in cid worldid).solreffriction
          = pair_solreffriction.data worldid ((collision_pairid_in cid).1).toNat ∧
        (contact_params geom_condim geom_priority geom_solmix geom_solref
        geom_solimp geom_friction geom_margin geom_gap pair_dim pair_solref
        pair_solreffriction pair_solimp pair_margin pair_gap pair_friction
        collision_pair_in collision_pairid_in cid worldid).solimp = pair_solimp.data worldid ((collision_pairid_in cid).1).toNat ∧
        (contact_params geom_condim geom_priority geom_solmix geom_solref
        geom_solimp geom_friction geom_margin geom_gap pair_dim pair_solref
        pair_solreffriction pair_solimp pair_margin pair_gap pair_friction
        collision_pair_in collision_pairid_in cid worldid).friction
          = vec5mk (max MJ_MINMU (pair_friction.data worldid ((collision_pairid_in cid).1).toNat 0))
              (max MJ_MINMU (pair_friction.data worldid ((collision_pairid_in cid).1).toNat 1))
              (max MJ_MINMU (pair_friction.data worldid ((collision_pairid_in cid).1).toNat 2))
              (max MJ_MINMU (pair_friction.data worldid ((collision_pairid_in cid).1).toNat 3))
              (max MJ_MINMU (pair_friction.data worldid ((collision_pairid_in cid).1).toNat 4))) ∧
      ((collision_pairid_in cid).1 ≤ -1 →
        (contact_params geom_condim geom_priority geom_solmix geom_solref
        geom_solimp geom_friction geom_margin geom_gap pair_dim pair_solref
        pair_solreffriction pair_solimp pair_margin pair_gap pair_friction
        collision_pair_in collision_pairid_in cid worldid).margin
          = geom_margin.data (worldid % geom_margin.nrow)
              (collision_pair_in cid).1 +
            geom_margin.data (worldid % geom_margin.nrow)
              (collision_pair_in cid).2 ∧
        (contact_params geom_condim geom_priority geom_solmix geom_solref
        geom_solimp geom_friction geom_margin geom_gap pair_dim pair_solref
        pair_solreffriction pair_solimp pair_margin pair_gap pair_friction
        collision_pair_in collision_pairid_in cid worldid).gap
          = geom_gap.data (worldid % geom_gap.nrow)
              (collision_pair_in cid).1 +
            geom_gap.data (worldid % geom_gap.nrow)
              (collision_pair_in cid).2)) := by
  constructor
  · intro geom_type geom_dataid geom_size mesh_vertadr mesh_vertnum
      mesh_graphadr mesh_vert mesh_graph mesh_polynum mesh_polyadr
      mesh_polynormal mesh_polyvertadr mesh_polyvertnum mesh_polyvert
      mesh_polymapadr mesh_polymapnum mesh_polymap geom_xpos_in geom_xmat_in
      geoms worldid
    have hsize : (geom_collision_pair geom_type geom_dataid geom_size mesh_vertadr
        mesh_vertnum mesh_graphadr mesh_vert mesh_graph mesh_polynum
        mesh_polyadr mesh_polynormal mesh_polyvertadr mesh_polyvertnum
        mesh_polyvert mesh_polymapadr mesh_polymapnum mesh_polymap
        geom_xpos_in geom_xmat_in geoms worldid).1.size
        = geom_size.data (worldid % geom_size.nrow) geoms.1 := by
      simp only [geom_collision_pair]
      split <;> rfl
    refine ⟨hsize, ?_, ?_, ?_, ?_, ?_⟩
    · simp only [geom_collision_pair]
      split <;> rfl
    · simp only [geom_collision_pair]
      split <;> rfl
    · simp only [geom_collision_pair]
      split <;> rfl
    · simp only [geom_collision_pair]
      split <;> rfl
    · intro hone
      rw [hsize, hone, Nat.mod_one]
  · intro geom_condim geom_priority geom_solmix geom_solref geom_solimp
      geom_friction geom_margin geom_gap pair_dim pair_solref
      pair_solreffriction pair_solimp pair_margin pair_gap pair_friction
      collision_pair_in collision_pairid_in cid worldid
    constructor
    · intro hp
      simp only [contact_params, if_pos hp, vec5mk_app0, vec5mk_app1,
        vec5mk_app2, vec5mk_app3, vec5mk_app4, and_self]
    · intro hle
      have hnp : ¬((collision_pairid_in cid).1 > -1) := not_lt.mpr hle
      simp only [contact_params, if_neg hnp, and_self]

/-- Witness for C1 (amended): a single-row `geom_size` broadcasts (row 0 is
read at `worldid = 5`), while a single-row `pair_margin` table is read at
row `worldid = 1` directly in the override branch. -/
theorem claim_C1_amended_witness :
    (geom_collision_pair (fun _ => 2) (fun _ => 0)
      ⟨1, fun _ _ => vec3mk 9 9 9⟩ (fun _ => 0) (fun _ => 0) (fun _ => 0)
      (fun _ _ => 0) (fun _ => 0) (fun _ => 0) (fun _ => 0) (fun _ _ => 0)
      (fun _ => 0) (fun _ => 0) (fun _ => 0) (fun _ => 0) (fun _ => 0)
      (fun _ => 0) ⟨6, fun _ _ => vec3mk 0 0 0⟩ ⟨6, fun _ _ _ => 0⟩
      (0, 1) 5).1.size
      = (⟨1, fun _ _ => vec3mk 9 9 9⟩ : Array2 Vec3).data 0 0 ∧
    (contact_params (fun _ => 3) (fun _ => 0)
      ⟨1, fun _ _ => 1⟩ ⟨1, fun _ _ => vec2mk 1 1⟩
      ⟨1, fun _ _ => vec5mk 1 1 1 1 1⟩ ⟨1, fun _ _ => vec3mk 1 1 1⟩
      ⟨1, fun _ _ => 0⟩ ⟨1, fun _ _ => 0⟩
      (fun _ => 3) ⟨1, fun _ _ => vec2mk 1 1⟩ ⟨1, fun _ _ => vec2mk 0 0⟩
      ⟨1, fun _ _ => vec5mk 1 1 1 1 1⟩
      ⟨1, fun i _ => if i = 0 then 2 else 3⟩ ⟨1, fun _ _ => 0⟩
      ⟨1, fun _ _ => vec5mk 1 1 1 1 1⟩
      (fun _ => (0, 1)) (fun _ => (0, -1)) 0 1).margin
      = (⟨1, fun i _ => if i = 0 then 2 else 3⟩ : Array2 ℚ).data 1 0 := by
  constructor
  · exact (claim_C1_amended.1 (fun _ => 2) (fun _ => 0)
      ⟨1, fun _ _ => vec3mk 9 9 9⟩ (fun _ => 0) (fun _ => 0) (fun _ => 0)
      (fun _ _ => 0) (fun _ => 0) (fun _ => 0) (fun _ => 0) (fun _ _ => 0)
      (fun _ => 0) (fun _ => 0) (fun _ => 0) (fun _ => 0) (fun _ => 0)
      (fun _ => 0) ⟨6, fun _ _ => vec3mk 0 0 0⟩ ⟨6, fun _ _ _ => 0⟩
      (0, 1) 5).2.2.2.2.2 rfl
  · exact ((claim_C1_amended.2 (fun _ => 3) (fun _ => 0)
      ⟨1, fun _ _ => 1⟩ ⟨1, fun _ _ => vec2mk 1 1⟩
      ⟨1, fun _ _ => vec5mk 1 1 1 1 1⟩ ⟨1, fun _ _ => vec3mk 1 1 1⟩
      ⟨1, fun _ _ => 0⟩ ⟨1, fun _ _ => 0⟩
      (fun _ => 3) ⟨1, fun _ _ => vec2mk 1 1⟩ ⟨1, fun _ _ => vec2mk 0 0⟩
      ⟨1, fun _ _ => vec5mk 1 1 1 1 1⟩
      ⟨1, fun i _ => if i = 0 then 2 else 3⟩ ⟨1, fun _ _ => 0⟩
      ⟨1, fun _ _ => vec5mk 1 1 1 1 1⟩
      (fun _ => (0, 1)) (fun _ => (0, -1)) 0 1).1 (by decide)).1
